import Mathlib

/-!
Verification of the Maplex Customise theme middleware.

The repository ships two near-duplicate variants of an Express middleware:
a global-theme variant (namespace `GlobalVariant`, `src/index.ts` first
module) and a per-user variant (namespace `UserVariant`, second module).
Both resolve a theme record (colors, radius, shadows, fonts, optional logo),
persist it through an abstract storage collaborator, guard reads with a
TTL cache, and render the record to a CSS stylesheet.

Modelling conventions:
* JavaScript numbers are modelled as `ℚ` (exact rational arithmetic);
  number-to-string conversion is abstracted by `qToString`.
* JS objects with string keys (`colors`, the cache `Map`, database rows)
  are association lists.
* `undefined` is `Option.none`; JS falsiness of strings and numbers is
  modelled explicitly (`strFalsy`, `jsOrStr`, `jsOrNum`).
* The external `culori` color library (`oklch` / `formatCss`) is an
  abstract `ColorLib`; a call that throws is an `Except.error`.
* Route handlers are pure functions from (config, state, request data,
  current time) to (response, new state); `Date.now()` is an explicit
  `now : ℤ` argument.
-/

/-- JS object mapping color role names to CSS color strings
(insertion-ordered association list). -/
abbrev ThemeColors : Type := List (String × String)

structure ThemeShadows where
  enabled : Bool
  opacity : ℚ
  blur : ℚ
  deriving DecidableEq

structure ThemeFonts where
  sans : String
  serif : String
  mono : String
  deriving DecidableEq

/-- `Partial<Theme>` as read from a request body: each updatable field may
be present or absent (`undefined`). -/
structure PartialTheme where
  name : Option String := none
  colors : Option ThemeColors := none
  radius : Option ℚ := none
  shadows : Option ThemeShadows := none
  fonts : Option ThemeFonts := none
  deriving DecidableEq

/-- Middleware options that matter to the cache layer
(`enableCaching`, `cacheTTL`). -/
structure Config where
  enableCaching : Bool
  cacheTTL : ℤ
  deriving DecidableEq

/-- Structured HTTP error response (`status`, `error`, optional `details`). -/
structure ErrResp where
  status : ℕ
  error : String
  details : Option String
  deriving DecidableEq

/-- JS falsiness of `colors[role]`: missing key (`undefined`) or empty
string. -/
def strFalsy : Option String → Bool
  | none => true
  | some s => s == ""

/-- JS `x || d` for an optional string field (empty string is falsy). -/
def jsOrStr (o : Option String) (d : String) : String :=
  match o with
  | none => d
  | some s => if s == "" then d else s

/-- JS `x || d` for an optional numeric field (`0` is falsy). -/
def jsOrNum (o : Option ℚ) (d : ℚ) : ℚ :=
  match o with
  | none => d
  | some x => if x == 0 then d else x

/-- Abstraction of JavaScript number-to-string conversion used in CSS
template literals.  The exact rendering is irrelevant to every claim
proved below; only that it is a function of the number. -/
def qToString (q : ℚ) : String :=
  if q.den = 1 then toString q.num else toString q.num ++ "/" ++ toString q.den

/-- Result object of culori's `oklch(color)` parse. -/
structure OklchColor where
  l : ℚ
  c : ℚ
  h : Option ℚ
  alpha : Option ℚ
  deriving DecidableEq

/-- The external `culori` library at the interface used by the code:
`parse` models `oklch(color)` (it may throw — `Except.error` — or return
`undefined` — `Option.none`), `fmt` models `formatCss(parsed)` (which may
also throw). -/
structure ColorLib where
  parse : String → Except Unit (Option OklchColor)
  fmt : OklchColor → Except Unit String

/-- `convertToOklch(color)`: try to parse and re-serialize; any throw or
failed parse yields the input unchanged.  Mirrors the `try/catch` around
`oklch`/`formatCss`. -/
def convertToOklch (L : ColorLib) (color : String) : String :=
  match L.parse color with
  | .error _ => color
  | .ok none => color
  | .ok (some parsed) =>
    match L.fmt parsed with
    | .error _ => color
    | .ok s => s

/-! ## Cache layer (shared verbatim between the two variants) -/

structure CacheEntry (α : Type) where
  data : α
  timestamp : ℤ
  deriving DecidableEq

/-- The `Map<string, CacheEntry>` held by the middleware. -/
abbrev Cache (α : Type) : Type := List (String × CacheEntry α)

/-- `Map.delete`. -/
def cacheDelete {α : Type} (c : Cache α) (k : String) : Cache α :=
  c.filter (fun p => p.1 != k)

/-- `Map.set` (replaces any existing entry for the key). -/
def cacheSet {α : Type} (c : Cache α) (k : String) (e : CacheEntry α) : Cache α :=
  (k, e) :: cacheDelete c k

/-- `getFromCache(key)`: disabled caching is an unconditional miss; an
entry older than the TTL is evicted and treated as a miss; otherwise the
stored data is returned.  Returns the (possibly evicted) cache alongside
the result. -/
def getFromCache {α : Type} (enableCaching : Bool) (cacheTTL : ℤ)
    (c : Cache α) (key : String) (now : ℤ) : Option α × Cache α :=
  if enableCaching = false then (none, c)
  else
    match List.lookup key c with
    | none => (none, c)
    | some cached =>
      if now - cached.timestamp > cacheTTL then (none, cacheDelete c key)
      else (some cached.data, c)

/-- `setCache(key, data)`: no-op when caching is disabled; otherwise
stores the payload stamped with the current time. -/
def setCache {α : Type} (enableCaching : Bool) (c : Cache α) (key : String)
    (d : α) (now : ℤ) : Cache α :=
  if enableCaching = false then c else cacheSet c key ⟨d, now⟩

/-- JS truthiness of a cached route payload: `undefined`/`null` and the
empty string are falsy, every object and non-empty string is truthy. -/
def payloadTruthy {α : Type} : Option (α ⊕ String) → Bool
  | none => false
  | some (.inl _) => true
  | some (.inr s) => !(s == "")

/-! ## Global-theme variant (`src/index.ts`, first module) -/

namespace GlobalVariant

/-- The global `Theme` record (identity/timestamp columns, owned by the
storage collaborator, are not modelled). -/
structure Theme where
  name : String
  colors : ThemeColors
  radius : ℚ
  shadows : ThemeShadows
  fonts : ThemeFonts
  logo : Option String
  deriving DecidableEq

def DEFAULT_THEME_COLORS : ThemeColors :=
  [("background", "#ffffff"),
   ("foreground", "#1E1E1E"),
   ("primary", "#1E1E1E"),
   ("primary-foreground", "#ffffff"),
   ("secondary", "#f5f5f5"),
   ("secondary-foreground", "#1E1E1E"),
   ("accent", "#f5f5f5"),
   ("accent-foreground", "#1E1E1E"),
   ("muted", "#f5f5f5"),
   ("muted-foreground", "#737373"),
   ("card", "#ffffff"),
   ("card-foreground", "#1E1E1E"),
   ("border", "#e5e5e5"),
   ("input", "#e5e5e5"),
   ("ring", "#a3a3a3"),
   ("destructive", "#ef4444"),
   ("destructive-foreground", "#ffffff")]

def DEFAULT_SHADOWS : ThemeShadows := ⟨true, 5/100, 2⟩

def DEFAULT_FONTS : ThemeFonts := ⟨"Inter", "Source Serif 4", "JetBrains Mono"⟩

/-- `createDefaultTheme()` (value level; see `createDefaultThemeObj` below
for the reference-sharing level). -/
def createDefaultTheme : Theme :=
  { name := "My Theme"
    colors := DEFAULT_THEME_COLORS
    radius := 1/2
    shadows := DEFAULT_SHADOWS
    fonts := DEFAULT_FONTS
    logo := none }

/-- `Object.keys(DEFAULT_THEME_COLORS)`: the 17 required color roles, in
insertion order. -/
def requiredColors : List String := DEFAULT_THEME_COLORS.map Prod.fst

/-- `validateThemeData(data)`: when `colors` is supplied, walk the
required roles and throw on the first one that is missing or falsy.
Returns the thrown message, or `none` when validation passes. -/
def validateThemeData (data : PartialTheme) : Option String :=
  match data.colors with
  | none => none
  | some cs =>
    (requiredColors.find? (fun c => strFalsy (List.lookup c cs))).map
      (fun c => "Missing required color: " ++ c)

/-! ### Shadow scale (`generateShadowVariables`) -/

def shadowLevelNames : List String :=
  ["--shadow-2xs", "--shadow-xs", "--shadow-sm", "--shadow",
   "--shadow-md", "--shadow-lg", "--shadow-xl", "--shadow-2xl"]

/-- The eight enabled shadow levels, each a list of layers
`(geometry, hsl alpha)`, exactly as in the template literal of
`generateShadowVariables` (lines 276-285 of the source). -/
def shadowLayersEnabled (op : ℚ) : List (String × List (String × ℚ)) :=
  [("--shadow-2xs", [("0 1px 2px 0px", op * (6/10))]),
   ("--shadow-xs",  [("0 1px 2px 0px", op * (6/10))]),
   ("--shadow-sm",  [("0 1px 2px 0px", op), ("0 1px 2px -1px", op)]),
   ("--shadow",     [("0 1px 2px 0px", op), ("0 1px 2px -1px", op)]),
   ("--shadow-md",  [("0 1px 2px 0px", op), ("0 2px 4px -1px", op)]),
   ("--shadow-lg",  [("0 1px 2px 0px", op), ("0 4px 6px -1px", op)]),
   ("--shadow-xl",  [("0 1px 2px 0px", op), ("0 8px 10px -1px", op)]),
   ("--shadow-2xl", [("0 1px 2px 0px", op * (26/10))])]

/-- One rendered `hsl` layer of a box-shadow value. -/
def hslLayer (geom : String) (alpha : ℚ) : String :=
  geom ++ " hsl(0 0% 0% / " ++ qToString alpha ++ ")"

/-- The rendered shadow scale as (variable name, CSS value) pairs:
every level is `none` when shadows are disabled, otherwise the layered
`hsl` expression of `shadowLayersEnabled`. -/
def shadowScale (s : ThemeShadows) : List (String × String) :=
  if s.enabled = false then shadowLevelNames.map (fun n => (n, "none"))
  else
    (shadowLayersEnabled s.opacity).map
      (fun p => (p.1, String.intercalate ", " (p.2.map (fun l => hslLayer l.1 l.2))))

/-- `generateShadowVariables(shadows)`: the raw template-literal text
(the two branches differ in indentation exactly as in the source). -/
def generateShadowVariables (s : ThemeShadows) : String :=
  let indent := if s.enabled = false then "        " else "      "
  let tail := if s.enabled = false then "      " else "    "
  "\n" ++ String.join ((shadowScale s).map (fun p => indent ++ p.1 ++ ": " ++ p.2 ++ ";\n")) ++ tail

/-! ### CSS renderer (`GET /css` body, lines 417-474) -/

/-- The stylesheet text generated for a theme record on a CSS cache miss.
Literal `{`, `}` and `'` characters of the source template are written
with `\x7b`, `\x7d`, `\x27` escapes. -/
def renderCss (L : ColorLib) (t : Theme) : String :=
  ":root \x7b\n"
  ++ "  --radius: " ++ qToString t.radius ++ "rem;\n"
  ++ String.join (t.colors.map (fun kv => "  --" ++ kv.1 ++ ": " ++ convertToOklch L kv.2 ++ ";\n"))
  ++ "  --popover: var(--card);\n"
  ++ "  --popover-foreground: var(--card-foreground);\n"
  ++ "  --chart-1: oklch(0.8091 0.1431 152.6021);\n"
  ++ "  --chart-2: oklch(0.8063 0.1871 155.6935);\n"
  ++ "  --chart-3: oklch(0.7549 0.1455 165.4268);\n"
  ++ "  --chart-4: oklch(0.7897 0.1175 177.7279);\n"
  ++ "  --chart-5: oklch(0.5917 0.1357 242.4819);\n"
  ++ "  --sidebar: var(--background);\n"
  ++ "  --sidebar-foreground: var(--foreground);\n"
  ++ "  --sidebar-primary: var(--primary);\n"
  ++ "  --sidebar-primary-foreground: var(--primary-foreground);\n"
  ++ "  --sidebar-accent: var(--accent);\n"
  ++ "  --sidebar-accent-foreground: var(--accent-foreground);\n"
  ++ "  --sidebar-border: var(--border);\n"
  ++ "  --sidebar-ring: var(--ring);\n"
  ++ "  --font-sans: " ++ t.fonts.sans ++ ", ui-sans-serif, system-ui, -apple-system, BlinkMacSystemFont, \x27Segoe UI\x27, Roboto, \x27Helvetica Neue\x27, Arial, \x27Noto Sans\x27, sans-serif, \x27Apple Color Emoji\x27, \x27Segoe UI Emoji\x27, \x27Segoe UI Symbol\x27, \x27Noto Color Emoji\x27;\n"
  ++ "  --font-serif: " ++ t.fonts.serif ++ ", ui-serif, serif;\n"
  ++ "  --font-mono: " ++ t.fonts.mono ++ ", ui-monospace, monospace;\n"
  ++ "  --shadow-color: #000000;\n"
  ++ "  --shadow-opacity: " ++ qToString t.shadows.opacity ++ ";\n"
  ++ "  --shadow-blur: " ++ qToString t.shadows.blur ++ "px;\n"
  ++ "  --shadow-spread: 0px;\n"
  ++ "  --shadow-offset-x: 0;\n"
  ++ "  --shadow-offset-y: 1px;\n"
  ++ generateShadowVariables t.shadows
  ++ "  --letter-spacing: 0em;\n"
  ++ "  --spacing: 0.25rem;\n"
  ++ "  --tracking-normal: 0em;\n"
  ++ (match t.logo with
      | some lg => "  --logo-url: url(\x27" ++ lg ++ "\x27);\n"
      | none => "")
  ++ "\x7d\n"
  ++ "/* Theme: " ++ t.name ++ " */\n"

/-! ### State and routes -/

/-- A cached route payload: the single `Map` holds both theme records and
CSS strings (and `null`, which the `GET /` handler caches when the table
is empty). -/
abbrev GPayload : Type := Option (Theme ⊕ String)

/-- Middleware state: the single database row (the schema guarantees at
most one) and the cache `Map`. -/
structure GState where
  store : Option Theme
  cache : Cache GPayload
  deriving DecidableEq

def getCacheKey : String := "global_theme"

def cssCacheKey : String := getCacheKey ++ "_css"

/-- `clearCache()`: deletes the record entry and the derived CSS entry
(no-op when caching is disabled). -/
def clearCache (cfg : Config) (c : Cache GPayload) : Cache GPayload :=
  if cfg.enableCaching = false then c
  else cacheDelete (cacheDelete c getCacheKey) cssCacheKey

/-- `db.update(tableName, updateData, {})` with an undefined-stripped
patch: every field present in the patch overwrites the row, absent fields
keep the row's value; `logo` is not part of the theme patch. -/
def applyPatch (t : Theme) (p : PartialTheme) : Theme :=
  { name := p.name.getD t.name
    colors := p.colors.getD t.colors
    radius := p.radius.getD t.radius
    shadows := p.shadows.getD t.shadows
    fonts := p.fonts.getD t.fonts
    logo := t.logo }

/-- `GET /`: probe the cache under `global_theme`; on a falsy hit fetch
the row, cache it (even when `null`) and respond with it. -/
def getThemeRoute (cfg : Config) (s : GState) (now : ℤ) : GPayload × GState :=
  let r := getFromCache cfg.enableCaching cfg.cacheTTL s.cache getCacheKey now
  let theme : GPayload := r.1.getD none
  if payloadTruthy theme then (theme, { s with cache := r.2 })
  else
    let fetched : GPayload := s.store.map Sum.inl
    (fetched, { s with cache := setCache cfg.enableCaching r.2 getCacheKey fetched now })

/-- `POST /` (admin-authenticated upsert): validate the supplied colors,
patch the row with the defined fields of the body, clear both cache
entries and respond with the freshly re-read row.  A validation failure
responds 400 and leaves store and cache untouched. -/
def postThemeRoute (cfg : Config) (s : GState) (body : PartialTheme) :
    Except ErrResp (Option Theme) × GState :=
  match validateThemeData body with
  | some msg =>
    (.error { status := 400, error := "Invalid theme data", details := some msg }, s)
  | none =>
    let newStore := s.store.map (fun t => applyPatch t body)
    (.ok newStore, { store := newStore, cache := clearCache cfg s.cache })

/-- Successful CSS response: body (a cached payload or fresh text) plus
the two headers the handler sets. -/
structure CssOk where
  body : Theme ⊕ String
  contentType : String
  cacheControl : String
  deriving DecidableEq

/-- `GET /css`: probe the cache under `global_theme_css`; on a falsy hit
render the row (404 when absent), cache the text and respond with
`text/css` and the hard-coded `Cache-Control` header. -/
def getCssRoute (cfg : Config) (L : ColorLib) (s : GState) (now : ℤ) :
    Except ErrResp CssOk × GState :=
  let r := getFromCache cfg.enableCaching cfg.cacheTTL s.cache cssCacheKey now
  let cached : GPayload := r.1.getD none
  match cached, payloadTruthy cached with
  | some p, true =>
    (.ok { body := p, contentType := "text/css", cacheControl := "public, max-age=300" },
     { s with cache := r.2 })
  | _, _ =>
    match s.store with
    | none => (.error { status := 404, error := "Theme not found", details := none }, { s with cache := r.2 })
    | some t =>
      let css := renderCss L t
      (.ok { body := .inr css, contentType := "text/css", cacheControl := "public, max-age=300" },
       { s with cache := setCache cfg.enableCaching r.2 cssCacheKey (some (.inr css)) now })

/-- The patch written by `DELETE /`: `db.update(tableName,
createDefaultTheme(), {})`.  `logo: undefined` is skipped by the storage
collaborator like every undefined patch field. -/
def defaultResetPatch : PartialTheme :=
  { name := some "My Theme"
    colors := some DEFAULT_THEME_COLORS
    radius := some (1/2)
    shadows := some DEFAULT_SHADOWS
    fonts := some DEFAULT_FONTS }

/-- `DELETE /` (admin-authenticated reset): overwrite the row with the
defaults, clear both cache entries and respond with the re-read row. -/
def deleteThemeRoute (cfg : Config) (s : GState) :
    (String × Option Theme) × GState :=
  let newStore := s.store.map (fun t => applyPatch t defaultResetPatch)
  (("Theme reset to defaults", newStore),
   { store := newStore, cache := clearCache cfg s.cache })

/-! ### Reference-level model of `createDefaultTheme` (for the
deep-copy contract).  A JS object literal whose property values are
variable references stores the referenced objects themselves, not
copies; the three module-level default objects live at three fixed
heap addresses. -/

def DEFAULT_COLORS_ADDR : ℕ := 0
def DEFAULT_SHADOWS_ADDR : ℕ := 1
def DEFAULT_FONTS_ADDR : ℕ := 2

/-- What `createDefaultTheme()` returns at the reference level: the
literal `{ name: ..., colors: DEFAULT_THEME_COLORS, radius: ...,
shadows: DEFAULT_SHADOWS, fonts: DEFAULT_FONTS, logo: undefined }` — the
nested fields are the addresses of the shared module constants. -/
structure ThemeObj where
  name : String
  colorsRef : ℕ
  radius : ℚ
  shadowsRef : ℕ
  fontsRef : ℕ
  deriving DecidableEq

def createDefaultThemeObj : ThemeObj :=
  { name := "My Theme"
    colorsRef := DEFAULT_COLORS_ADDR
    radius := 1/2
    shadowsRef := DEFAULT_SHADOWS_ADDR
    fontsRef := DEFAULT_FONTS_ADDR }

/-- Heap of colors objects, keyed by address. -/
abbrev ColorsHeap : Type := List (ℕ × ThemeColors)

/-- The heap as the module loads: the baseline colors object at its
address. -/
def colorsHeap0 : ColorsHeap := [(DEFAULT_COLORS_ADDR, DEFAULT_THEME_COLORS)]

/-- JS `obj[role] = v` on a colors object. -/
def objSetColor (cs : ThemeColors) (role v : String) : ThemeColors :=
  if cs.any (fun kv => kv.1 == role) then
    cs.map (fun kv => if kv.1 == role then (kv.1, v) else kv)
  else cs ++ [(role, v)]

/-- Mutating `theme.colors[role] = v` through a reference: the write hits
the heap cell the reference points at. -/
def heapWriteColor (h : ColorsHeap) (addr : ℕ) (role v : String) : ColorsHeap :=
  h.map (fun cell => if cell.1 = addr then (cell.1, objSetColor cell.2 role v) else cell)

end GlobalVariant

/-! ## User-scoped variant (`src/index.ts`, second module) -/

namespace UserVariant

/-- The per-user `Theme` record. -/
structure Theme where
  userId : String
  name : String
  colors : ThemeColors
  radius : ℚ
  shadows : ThemeShadows
  fonts : ThemeFonts
  deriving DecidableEq

def DEFAULT_THEME_COLORS : ThemeColors :=
  [("background", "#ffffff"),
   ("foreground", "#0a0a0a"),
   ("primary", "#0a0a0a"),
   ("primary-foreground", "#ffffff"),
   ("secondary", "#f5f5f5"),
   ("secondary-foreground", "#0a0a0a"),
   ("accent", "#f5f5f5"),
   ("accent-foreground", "#0a0a0a"),
   ("muted", "#f5f5f5"),
   ("muted-foreground", "#737373"),
   ("card", "#ffffff"),
   ("card-foreground", "#0a0a0a"),
   ("border", "#e5e5e5"),
   ("input", "#e5e5e5"),
   ("ring", "#a3a3a3"),
   ("destructive", "#ef4444"),
   ("destructive-foreground", "#ffffff")]

def DEFAULT_SHADOWS : ThemeShadows := ⟨true, 5/100, 2⟩

def DEFAULT_FONTS : ThemeFonts := ⟨"Inter", "Source Serif 4", "JetBrains Mono"⟩

/-- `createDefaultTheme(userId)`. -/
def createDefaultTheme (userId : String) : Theme :=
  { userId := userId
    name := "My Theme"
    colors := DEFAULT_THEME_COLORS
    radius := 1/2
    shadows := DEFAULT_SHADOWS
    fonts := DEFAULT_FONTS }

def requiredColors : List String := DEFAULT_THEME_COLORS.map Prod.fst

/-- `validateThemeData(data)`, identical to the global variant but over
this module's defaults. -/
def validateThemeData (data : PartialTheme) : Option String :=
  match data.colors with
  | none => none
  | some cs =>
    (requiredColors.find? (fun c => strFalsy (List.lookup c cs))).map
      (fun c => "Missing required color: " ++ c)

/-- Payload cached by this variant's routes. -/
abbrev UPayload : Type := Option (Theme ⊕ String)

/-- Middleware state: the `user_themes` table (rows keyed by the unique
`userId` column) and the cache `Map`. -/
structure UState where
  store : List (String × Theme)
  cache : Cache UPayload
  deriving DecidableEq

def getCacheKey (userId : String) : String := "theme_" ++ userId

/-- `clearCache(userId)`: deletes the record entry and the CSS entry
(`getCacheKey('css_' + userId)`). -/
def clearCache (cfg : Config) (c : Cache UPayload) (userId : String) : Cache UPayload :=
  if cfg.enableCaching = false then c
  else cacheDelete (cacheDelete c (getCacheKey userId)) (getCacheKey ("css_" ++ userId))

/-- Insert-or-replace of the unique row for a user id. -/
def storeSet (l : List (String × Theme)) (k : String) (v : Theme) :
    List (String × Theme) :=
  (k, v) :: l.filter (fun p => p.1 != k)

/-- `GET /` (authenticated): cache probe; on a falsy hit fetch the row,
creating-and-inserting the default theme when absent (the one read with a
write side effect), cache and respond. -/
def getThemeRoute (cfg : Config) (s : UState) (userId : String) (now : ℤ) :
    UPayload × UState :=
  let r := getFromCache cfg.enableCaching cfg.cacheTTL s.cache (getCacheKey userId) now
  let theme : UPayload := r.1.getD none
  if payloadTruthy theme then (theme, { s with cache := r.2 })
  else
    match List.lookup userId s.store with
    | none =>
      let d := createDefaultTheme userId
      (some (.inl d),
       { store := storeSet s.store userId d
         cache := setCache cfg.enableCaching r.2 (getCacheKey userId) (some (.inl d)) now })
    | some t =>
      (some (.inl t),
       { s with cache := setCache cfg.enableCaching r.2 (getCacheKey userId) (some (.inl t)) now })

/-- The full-replace record built by `POST /` from the request body
(`themeData.name || 'My Theme'`, `themeData.radius || 0.5`,
`themeData.shadows || DEFAULT_SHADOWS`, `themeData.fonts ||
DEFAULT_FONTS`; objects are always truthy, so only `undefined` shadows or
fonts fall back). -/
def buildUpdateData (userId : String) (body : PartialTheme) (cs : ThemeColors) : Theme :=
  { userId := userId
    name := jsOrStr body.name "My Theme"
    colors := cs
    radius := jsOrNum body.radius (1/2)
    shadows := body.shadows.getD DEFAULT_SHADOWS
    fonts := body.fonts.getD DEFAULT_FONTS }

/-- `POST /` (authenticated upsert): reject a body without colors, then
validate, then write the full-replace record (update-if-exists, else
insert — both leave the same row) and clear both cache entries. -/
def postThemeRoute (cfg : Config) (s : UState) (userId : String)
    (body : PartialTheme) : Except ErrResp Theme × UState :=
  match body.colors with
  | none =>
    (.error { status := 400, error := "Theme colors are required", details := none }, s)
  | some cs =>
    match validateThemeData body with
    | some msg =>
      (.error { status := 400, error := "Invalid theme data", details := some msg }, s)
    | none =>
      let updateData := buildUpdateData userId body cs
      let newStore :=
        match List.lookup userId s.store with
        | some _ => storeSet s.store userId updateData
        | none => storeSet s.store userId updateData
      (.ok updateData, { store := newStore, cache := clearCache cfg s.cache userId })

/-- The shadow utility-class block appended when shadows are enabled
(lines 914-919 of the source; braces escaped as `\x7b`/`\x7d`). -/
def shadowUtilityClasses : String :=
  "\n.shadow-sm \x7b box-shadow: 0 1px 2px 0 rgba(0, 0, 0, var(--shadow-opacity)); \x7d\n"
  ++ ".shadow \x7b box-shadow: 0 1px 3px 0 rgba(0, 0, 0, var(--shadow-opacity)), 0 1px 2px 0 rgba(0, 0, 0, calc(var(--shadow-opacity) * 0.6)); \x7d\n"
  ++ ".shadow-md \x7b box-shadow: 0 4px 6px -1px rgba(0, 0, 0, var(--shadow-opacity)), 0 2px 4px -1px rgba(0, 0, 0, calc(var(--shadow-opacity) * 0.6)); \x7d\n"
  ++ ".shadow-lg \x7b box-shadow: 0 10px 15px -3px rgba(0, 0, 0, var(--shadow-opacity)), 0 4px 6px -2px rgba(0, 0, 0, calc(var(--shadow-opacity) * 0.5)); \x7d\n"

/-- The stylesheet text generated for a user theme on a CSS cache miss
(lines 894-920). -/
def renderCss (L : ColorLib) (t : Theme) : String :=
  ":root \x7b\n"
  ++ String.join (t.colors.map (fun kv => "  --" ++ kv.1 ++ ": " ++ convertToOklch L kv.2 ++ ";\n"))
  ++ "  --radius: " ++ qToString t.radius ++ "rem;\n"
  ++ "  --shadow-enabled: " ++ (if t.shadows.enabled then "1" else "0") ++ ";\n"
  ++ "  --shadow-opacity: " ++ qToString t.shadows.opacity ++ ";\n"
  ++ "  --shadow-blur: " ++ qToString t.shadows.blur ++ "px;\n"
  ++ "  --font-sans: \x27" ++ t.fonts.sans ++ "\x27, ui-sans-serif, system-ui, sans-serif;\n"
  ++ "  --font-serif: \x27" ++ t.fonts.serif ++ "\x27, ui-serif, serif;\n"
  ++ "  --font-mono: \x27" ++ t.fonts.mono ++ "\x27, ui-monospace, monospace;\n"
  ++ "\x7d\n"
  ++ (if t.shadows.enabled then shadowUtilityClasses else "")

/-- Successful CSS response of this variant. -/
structure CssOk where
  body : Theme ⊕ String
  contentType : String
  cacheControl : String
  deriving DecidableEq

/-- `GET /css` (authenticated): cache probe under
`getCacheKey('css_' + userId)`; on a falsy hit render the row (404 when
absent), cache the text and respond with `text/css` and the hard-coded
`Cache-Control` header. -/
def getCssRoute (cfg : Config) (L : ColorLib) (s : UState) (userId : String)
    (now : ℤ) : Except ErrResp CssOk × UState :=
  let cacheKey := getCacheKey ("css_" ++ userId)
  let r := getFromCache cfg.enableCaching cfg.cacheTTL s.cache cacheKey now
  let cached : UPayload := r.1.getD none
  match cached, payloadTruthy cached with
  | some p, true =>
    (.ok { body := p, contentType := "text/css", cacheControl := "public, max-age=300" },
     { s with cache := r.2 })
  | _, _ =>
    match List.lookup userId s.store with
    | none =>
      (.error { status := 404, error := "Theme not found", details := none },
       { s with cache := r.2 })
    | some t =>
      let css := renderCss L t
      (.ok { body := .inr css, contentType := "text/css", cacheControl := "public, max-age=300" },
       { s with cache := setCache cfg.enableCaching r.2 cacheKey (some (.inr css)) now })

/-- `DELETE /` (authenticated reset): overwrite the user's row with the
default theme (`db.update` patches the row only when it exists) and clear
both cache entries. -/
def deleteThemeRoute (cfg : Config) (s : UState) (userId : String) : UState :=
  let newStore :=
    s.store.map (fun kv => if kv.1 = userId then (kv.1, createDefaultTheme userId) else kv)
  { store := newStore, cache := clearCache cfg s.cache userId }

end UserVariant


/-! ## Helper definitions for the claim theorems -/

/-- A trivial instantiation of the external color library (parse always
fails), used to evaluate routes at concrete inputs. -/
def stubColorLib : ColorLib :=
  { parse := fun _ => .ok none
    fmt := fun _ => .ok "" }

/-- What a fresh (uncached) global CSS read responds for a given row:
404 when the table is empty, else the rendered stylesheet with the two
literal headers. -/
def gCssExpected (L : ColorLib) (st : Option GlobalVariant.Theme) :
    Except ErrResp GlobalVariant.CssOk :=
  match st with
  | none => .error ⟨404, "Theme not found", none⟩
  | some t =>
    .ok ⟨.inr (GlobalVariant.renderCss L t), "text/css", "public, max-age=300"⟩

/-- What a fresh (uncached) user CSS read responds for a given row. -/
def uCssExpected (L : ColorLib) (row : Option UserVariant.Theme) :
    Except ErrResp UserVariant.CssOk :=
  match row with
  | none => .error ⟨404, "Theme not found", none⟩
  | some t =>
    .ok ⟨.inr (UserVariant.renderCss L t), "text/css", "public, max-age=300"⟩

/-- The partial update exhibiting the falsy-field defect of claim C1:
colors fully supplied, `radius` explicitly present and equal to `0`. -/
def pC1 : PartialTheme :=
  { colors := some UserVariant.DEFAULT_THEME_COLORS, radius := some 0 }

/-! ### Trace-level cache coherence machinery

To settle the "no subsequent read EVER returns a pre-write payload" part
of claim C5, reads are iterated: a read request is a theme read or a CSS
read (with its own `Date.now()`), and a post-write state is shown to stay
coherent under any sequence of such reads. -/

inductive ReadReq where
  | theme : ReadReq
  | css : ReadReq

def gReadStep (cfg : Config) (L : ColorLib) (s : GlobalVariant.GState)
    (q : ReadReq × ℤ) : GlobalVariant.GState :=
  match q.1 with
  | .theme => (GlobalVariant.getThemeRoute cfg s q.2).2
  | .css => (GlobalVariant.getCssRoute cfg L s q.2).2

def gRunReads (cfg : Config) (L : ColorLib) (s : GlobalVariant.GState)
    (ops : List (ReadReq × ℤ)) : GlobalVariant.GState :=
  ops.foldl (gReadStep cfg L) s

def uReadStep (cfg : Config) (L : ColorLib) (uid : String)
    (s : UserVariant.UState) (q : ReadReq × ℤ) : UserVariant.UState :=
  match q.1 with
  | .theme => (UserVariant.getThemeRoute cfg s uid q.2).2
  | .css => (UserVariant.getCssRoute cfg L s uid q.2).2

def uRunReads (cfg : Config) (L : ColorLib) (uid : String)
    (s : UserVariant.UState) (ops : List (ReadReq × ℤ)) : UserVariant.UState :=
  ops.foldl (uReadStep cfg L uid) s

/-- Which payloads a coherent cache (relative to the global row `st`) may
hold under the two keys of the global variant. -/
def gCacheOK (L : ColorLib) (st : Option GlobalVariant.Theme)
    (c : Cache GlobalVariant.GPayload) : Prop :=
  (∀ e, List.lookup GlobalVariant.getCacheKey c = some e →
    e.data = st.map Sum.inl) ∧
  (∀ e, List.lookup GlobalVariant.cssCacheKey c = some e →
    e.data = st.map (fun t => Sum.inr (GlobalVariant.renderCss L t)))

/-- Post-write coherence of a global middleware state: the row is `st`
and (when caching is on) no cached payload predates `st`. -/
def gCoherent (cfg : Config) (L : ColorLib) (st : Option GlobalVariant.Theme)
    (s : GlobalVariant.GState) : Prop :=
  s.store = st ∧ (cfg.enableCaching = true → gCacheOK L st s.cache)

def uCacheOK (L : ColorLib) (uid : String) (ut : UserVariant.Theme)
    (c : Cache UserVariant.UPayload) : Prop :=
  (∀ e, List.lookup (UserVariant.getCacheKey uid) c = some e →
    e.data = some (.inl ut)) ∧
  (∀ e, List.lookup (UserVariant.getCacheKey ("css_" ++ uid)) c = some e →
    e.data = some (.inr (UserVariant.renderCss L ut)))

/-- Post-write coherence of a user middleware state for identity `uid`
whose row is `ut`. -/
def uCoherent (cfg : Config) (L : ColorLib) (uid : String)
    (ut : UserVariant.Theme) (s : UserVariant.UState) : Prop :=
  List.lookup uid s.store = some ut ∧
  (cfg.enableCaching = true → uCacheOK L uid ut s.cache)

/-- Post-upsert state used to witness `C5_cache_coherence` (global). -/
def gC5s : GlobalVariant.GState :=
  ⟨some (GlobalVariant.applyPatch GlobalVariant.createDefaultTheme {}),
   GlobalVariant.clearCache ⟨true, 300000⟩ []⟩

/-- Post-upsert state used to witness `C5_cache_coherence` (user). -/
def uC5s : UserVariant.UState :=
  ⟨UserVariant.storeSet [] "7"
      (UserVariant.buildUpdateData "7"
        { colors := some UserVariant.DEFAULT_THEME_COLORS }
        UserVariant.DEFAULT_THEME_COLORS),
   UserVariant.clearCache ⟨true, 300000⟩ [] "7"⟩


/-! ### Association-list lemmas for the cache `Map` -/

theorem cacheDelete_cons_self {α : Type} (a : String) (b : CacheEntry α)
    (tl : Cache α) (k : String) (h : a = k) :
    cacheDelete ((a, b) :: tl) k = cacheDelete tl k := by
  simp [cacheDelete, List.filter_cons, h]

theorem cacheDelete_cons_ne {α : Type} (a : String) (b : CacheEntry α)
    (tl : Cache α) (k : String) (h : ¬a = k) :
    cacheDelete ((a, b) :: tl) k = (a, b) :: cacheDelete tl k := by
  simp [cacheDelete, List.filter_cons, h]

theorem lookup_cacheDelete_self {α : Type} (c : Cache α) (k : String) :
    List.lookup k (cacheDelete c k) = none := by
  induction c with
  | nil => rfl
  | cons hd tl ih =>
    obtain ⟨a, b⟩ := hd
    by_cases h : a = k
    · rw [cacheDelete_cons_self a b tl k h]
      exact ih
    · rw [cacheDelete_cons_ne a b tl k h]
      have hk : (k == a) = false := beq_eq_false_iff_ne.mpr (Ne.symm h)
      simp only [List.lookup, hk]
      exact ih

theorem lookup_cacheDelete_ne {α : Type} (c : Cache α) {k k' : String}
    (h : k' ≠ k) : List.lookup k' (cacheDelete c k) = List.lookup k' c := by
  induction c with
  | nil => rfl
  | cons hd tl ih =>
    obtain ⟨a, b⟩ := hd
    by_cases h1 : a = k
    · rw [cacheDelete_cons_self a b tl k h1]
      have h2 : (k' == a) = false := beq_eq_false_iff_ne.mpr (h1 ▸ h)
      simp only [List.lookup, h2]
      exact ih
    · rw [cacheDelete_cons_ne a b tl k h1]
      by_cases h3 : k' = a
      · have h4 : (k' == a) = true := beq_iff_eq.mpr h3
        simp only [List.lookup, h4]
      · have h4 : (k' == a) = false := beq_eq_false_iff_ne.mpr h3
        simp only [List.lookup, h4]
        exact ih


/-! ## Claim theorems -/

/-- Claim C8: for every input string, `convertToOklch` either returns the
re-serialization (`formatCss`) of a successfully parsed color, or returns
the input unchanged.  It never raises: the function is total by
construction — every throwing branch of the embedded `try/catch`
(`Except.error` from `parse` or `fmt`) falls back to the input. -/
theorem C8_convert_reserialize_or_id (L : ColorLib) (input : String) :
    (∃ c s, L.parse input = .ok (some c) ∧ L.fmt c = .ok s ∧
      convertToOklch L input = s) ∨
    convertToOklch L input = input := by
  cases hp : L.parse input with
  | error e => right; simp [convertToOklch, hp]
  | ok o =>
    cases o with
    | none => right; simp [convertToOklch, hp]
    | some c =>
      cases hf : L.fmt c with
      | error e => right; simp [convertToOklch, hp, hf]
      | ok s => left; exact ⟨c, s, rfl, hf, by simp [convertToOklch, hp, hf]⟩

/-- Claim C6: a cache entry written at `t0` is a miss (and is evicted)
for any read with `now - t0 > ttl`, and a hit returning the stored
payload for any read with `now - t0 ≤ ttl`. -/
theorem C6_cache_ttl {α : Type} (ttl : ℤ) (c : Cache α) (key : String)
    (t0 now : ℤ) (d : α) (h : List.lookup key c = some ⟨d, t0⟩) :
    (now - t0 > ttl → getFromCache true ttl c key now = (none, cacheDelete c key)) ∧
    (now - t0 ≤ ttl → getFromCache true ttl c key now = (some d, c)) := by
  constructor
  · intro hgt
    simp [getFromCache, h, hgt]
  · intro hle
    have hnot : ¬(now - t0 > ttl) := not_lt.mpr hle
    simp [getFromCache, h, hnot]

theorem C6_cache_ttl_witness :
    getFromCache true 10 [("k", (⟨"v", 0⟩ : CacheEntry String))] "k" 11 =
      (none, cacheDelete [("k", (⟨"v", 0⟩ : CacheEntry String))] "k") ∧
    getFromCache true 10 [("k", (⟨"v", 0⟩ : CacheEntry String))] "k" 5 =
      (some "v", [("k", (⟨"v", 0⟩ : CacheEntry String))]) :=
  ⟨(C6_cache_ttl 10 [("k", ⟨"v", 0⟩)] "k" 0 11 "v" (by decide)).1 (by decide),
   (C6_cache_ttl 10 [("k", ⟨"v", 0⟩)] "k" 0 5 "v" (by decide)).2 (by decide)⟩

/-- Claim C3 as stated is false ("1 for the middle four levels"): with
`opacity = 1/10` (which separates the three multipliers), exactly FIVE of
the eight levels — `sm`, the unnamed `shadow`, `md`, `lg` and `xl` —
have every hsl alpha equal to `opacity × 1`, not four. -/
theorem C3_counterexample :
    ((GlobalVariant.shadowLayersEnabled (1/10)).filter
        (fun p => p.2.all (fun l => decide (l.2 = (1/10 : ℚ))))).length = 5 ∧
    (5 : ℕ) ≠ 4 := by
  constructor
  · norm_num [GlobalVariant.shadowLayersEnabled, List.filter_cons]
  · decide

/-- Claim C3, amended: the rendered shadow scale has exactly the eight
named levels from `2xs` to `2xl`; if `shadows.enabled` is false every
level is the literal `none`; otherwise every hsl alpha is
`shadows.opacity` times a fixed per-level multiplier — `0.6` for the two
smallest levels, `1` for the middle FIVE levels, `2.6` for the largest —
and at `opacity = 1/10` the `2xs` alpha is `6/100` and the `2xl` alpha is
`26/100`. -/
theorem C3_shadow_scale (op blur : ℚ) :
    ((GlobalVariant.shadowScale ⟨false, op, blur⟩).map Prod.fst =
        GlobalVariant.shadowLevelNames ∧
     (GlobalVariant.shadowScale ⟨false, op, blur⟩).map Prod.snd =
        List.replicate 8 "none") ∧
    ((GlobalVariant.shadowScale ⟨true, op, blur⟩).map Prod.fst =
        GlobalVariant.shadowLevelNames ∧
     (GlobalVariant.shadowLayersEnabled op).map (fun p => p.2.map Prod.snd) =
        [[op * (6/10)], [op * (6/10)],
         [op, op], [op, op], [op, op], [op, op], [op, op],
         [op * (26/10)]]) ∧
    ((GlobalVariant.shadowLayersEnabled (1/10)).map (fun p => p.2.map Prod.snd) =
        [[6/100], [6/100],
         [1/10, 1/10], [1/10, 1/10], [1/10, 1/10], [1/10, 1/10], [1/10, 1/10],
         [26/100]]) := by
  refine ⟨⟨rfl, rfl⟩, ⟨rfl, rfl⟩, ?_⟩
  norm_num [GlobalVariant.shadowLayersEnabled]

/-- Claim C4 is a code bug: `createDefaultTheme()` does NOT deep-copy.
At the reference level it returns the addresses of the shared module
constants (`colors: DEFAULT_THEME_COLORS`, ...), so writing
`returned.colors.background = '#000000'` mutates the heap cell holding
the shared baseline: afterwards the baseline address no longer holds
`DEFAULT_THEME_COLORS`. -/
theorem C4_default_theme_aliasing :
    GlobalVariant.createDefaultThemeObj.colorsRef = GlobalVariant.DEFAULT_COLORS_ADDR ∧
    GlobalVariant.createDefaultThemeObj.shadowsRef = GlobalVariant.DEFAULT_SHADOWS_ADDR ∧
    GlobalVariant.createDefaultThemeObj.fontsRef = GlobalVariant.DEFAULT_FONTS_ADDR ∧
    List.lookup GlobalVariant.DEFAULT_COLORS_ADDR
        (GlobalVariant.heapWriteColor GlobalVariant.colorsHeap0
          GlobalVariant.createDefaultThemeObj.colorsRef "background" "#000000") ≠
      some GlobalVariant.DEFAULT_THEME_COLORS := by
  refine ⟨rfl, rfl, rfl, ?_⟩
  decide

/-- Claim C2: in both variants, an upsert whose supplied colors map is
missing (or maps to an empty value) some required role fails with a 400
validation error whose details name a missing role, and returns with the
state — stored record AND cache — exactly as it was: no storage access,
no partial write. -/
theorem C2_validation_aborts_upsert :
    (∀ (cfg : Config) (s : GlobalVariant.GState) (p : PartialTheme) (cs : ThemeColors),
      p.colors = some cs →
      (∃ r ∈ GlobalVariant.requiredColors, strFalsy (List.lookup r cs) = true) →
      ∃ r, r ∈ GlobalVariant.requiredColors ∧ strFalsy (List.lookup r cs) = true ∧
        GlobalVariant.postThemeRoute cfg s p =
          (.error ⟨400, "Invalid theme data", some ("Missing required color: " ++ r)⟩, s)) ∧
    (∀ (cfg : Config) (s : UserVariant.UState) (uid : String) (p : PartialTheme)
       (cs : ThemeColors),
      p.colors = some cs →
      (∃ r ∈ UserVariant.requiredColors, strFalsy (List.lookup r cs) = true) →
      ∃ r, r ∈ UserVariant.requiredColors ∧ strFalsy (List.lookup r cs) = true ∧
        UserVariant.postThemeRoute cfg s uid p =
          (.error ⟨400, "Invalid theme data", some ("Missing required color: " ++ r)⟩, s)) := by
  constructor
  · intro cfg s p cs hc hex
    have hS : (GlobalVariant.requiredColors.find?
        (fun c => strFalsy (List.lookup c cs))).isSome := by
      rw [List.find?_isSome]
      obtain ⟨r, hr, hfal⟩ := hex
      exact ⟨r, hr, hfal⟩
    obtain ⟨r, hr⟩ := Option.isSome_iff_exists.mp hS
    refine ⟨r, List.mem_of_find?_eq_some hr, by simpa using List.find?_some hr, ?_⟩
    have hv : GlobalVariant.validateThemeData p =
        some ("Missing required color: " ++ r) := by
      simp [GlobalVariant.validateThemeData, hc, hr]
    simp [GlobalVariant.postThemeRoute, hv]
  · intro cfg s uid p cs hc hex
    have hS : (UserVariant.requiredColors.find?
        (fun c => strFalsy (List.lookup c cs))).isSome := by
      rw [List.find?_isSome]
      obtain ⟨r, hr, hfal⟩ := hex
      exact ⟨r, hr, hfal⟩
    obtain ⟨r, hr⟩ := Option.isSome_iff_exists.mp hS
    refine ⟨r, List.mem_of_find?_eq_some hr, by simpa using List.find?_some hr, ?_⟩
    have hv : UserVariant.validateThemeData p =
        some ("Missing required color: " ++ r) := by
      simp [UserVariant.validateThemeData, hc, hr]
    simp [UserVariant.postThemeRoute, hc, hv]

theorem C2_validation_aborts_upsert_witness :
    (∃ r, r ∈ GlobalVariant.requiredColors ∧
      strFalsy (List.lookup r [("background", "#ffffff")]) = true ∧
      GlobalVariant.postThemeRoute ⟨true, 300000⟩ ⟨none, []⟩
          { colors := some [("background", "#ffffff")] } =
        (.error ⟨400, "Invalid theme data", some ("Missing required color: " ++ r)⟩,
         ⟨none, []⟩)) ∧
    (∃ r, r ∈ UserVariant.requiredColors ∧
      strFalsy (List.lookup r [("background", "#ffffff")]) = true ∧
      UserVariant.postThemeRoute ⟨true, 300000⟩ ⟨[], []⟩ "7"
          { colors := some [("background", "#ffffff")] } =
        (.error ⟨400, "Invalid theme data", some ("Missing required color: " ++ r)⟩,
         ⟨[], []⟩)) :=
  ⟨C2_validation_aborts_upsert.1 ⟨true, 300000⟩ ⟨none, []⟩ _ _ rfl
      ⟨"foreground", by decide, by decide⟩,
   C2_validation_aborts_upsert.2 ⟨true, 300000⟩ ⟨[], []⟩ "7" _ _ rfl
      ⟨"foreground", by decide, by decide⟩⟩

/-- Claim C10: a user-variant upsert whose body has no `colors` field is
rejected with status 400 and error `Theme colors are required`, with the
state returned untouched (before any other validation and before any
storage access), for ANY other supplied fields; the global variant
accepts the same colors-less body (its upsert succeeds). -/
theorem C10_user_colors_required (cfg : Config) (s : UserVariant.UState)
    (uid : String) (p : PartialTheme) (hc : p.colors = none) :
    UserVariant.postThemeRoute cfg s uid p =
      (.error ⟨400, "Theme colors are required", none⟩, s) ∧
    (∀ (gcfg : Config) (gs : GlobalVariant.GState),
      ∃ r gs', GlobalVariant.postThemeRoute gcfg gs p = (.ok r, gs')) := by
  constructor
  · simp [UserVariant.postThemeRoute, hc]
  · intro gcfg gs
    have hv : GlobalVariant.validateThemeData p = none := by
      simp [GlobalVariant.validateThemeData, hc]
    exact ⟨gs.store.map (fun t => GlobalVariant.applyPatch t p),
      ⟨gs.store.map (fun t => GlobalVariant.applyPatch t p),
       GlobalVariant.clearCache gcfg gs.cache⟩,
      by simp [GlobalVariant.postThemeRoute, hv]⟩

theorem C10_user_colors_required_witness :
    (UserVariant.postThemeRoute ⟨true, 300000⟩ ⟨[], []⟩ "7"
        { name := some "Mine", radius := some (8/10) } =
      (.error ⟨400, "Theme colors are required", none⟩, ⟨[], []⟩)) ∧
    (∃ r gs', GlobalVariant.postThemeRoute ⟨true, 300000⟩
        ⟨some GlobalVariant.createDefaultTheme, []⟩
        { name := some "Mine", radius := some (8/10) } = (.ok r, gs')) :=
  ⟨(C10_user_colors_required ⟨true, 300000⟩ ⟨[], []⟩ "7"
      { name := some "Mine", radius := some (8/10) } rfl).1,
   (C10_user_colors_required ⟨true, 300000⟩ ⟨[], []⟩ "7"
      { name := some "Mine", radius := some (8/10) } rfl).2 ⟨true, 300000⟩
      ⟨some GlobalVariant.createDefaultTheme, []⟩⟩

/-! ### Route-level helper lemmas -/

theorem gKeys_ne : GlobalVariant.getCacheKey ≠ GlobalVariant.cssCacheKey := by
  decide

theorem uKeys_ne (uid : String) :
    UserVariant.getCacheKey uid ≠ UserVariant.getCacheKey ("css_" ++ uid) := by
  intro h
  have hlen := congrArg String.length h
  simp only [UserVariant.getCacheKey, String.length_append] at hlen
  have h1 : ("theme_" : String).length = 6 := rfl
  have h2 : ("css_" : String).length = 4 := rfl
  rw [h1, h2] at hlen
  omega

/-- After `clearCache()` (global variant) the record key misses. -/
theorem gClear_lookup_theme (cfg : Config) (c : Cache GlobalVariant.GPayload)
    (h : cfg.enableCaching = true) :
    List.lookup GlobalVariant.getCacheKey (GlobalVariant.clearCache cfg c) = none := by
  simp only [GlobalVariant.clearCache, h]
  rw [if_neg (by simp)]
  rw [lookup_cacheDelete_ne _ gKeys_ne]
  exact lookup_cacheDelete_self _ _

/-- After `clearCache()` (global variant) the CSS key misses. -/
theorem gClear_lookup_css (cfg : Config) (c : Cache GlobalVariant.GPayload)
    (h : cfg.enableCaching = true) :
    List.lookup GlobalVariant.cssCacheKey (GlobalVariant.clearCache cfg c) = none := by
  simp only [GlobalVariant.clearCache, h]
  rw [if_neg (by simp)]
  exact lookup_cacheDelete_self _ _

/-- After `clearCache(userId)` the record key misses. -/
theorem uClear_lookup_theme (cfg : Config) (c : Cache UserVariant.UPayload)
    (uid : String) (h : cfg.enableCaching = true) :
    List.lookup (UserVariant.getCacheKey uid) (UserVariant.clearCache cfg c uid) = none := by
  simp only [UserVariant.clearCache, h]
  rw [if_neg (by simp)]
  rw [lookup_cacheDelete_ne _ (uKeys_ne uid)]
  exact lookup_cacheDelete_self _ _

/-- After `clearCache(userId)` the CSS key misses. -/
theorem uClear_lookup_css (cfg : Config) (c : Cache UserVariant.UPayload)
    (uid : String) (h : cfg.enableCaching = true) :
    List.lookup (UserVariant.getCacheKey ("css_" ++ uid)) (UserVariant.clearCache cfg c uid) = none := by
  simp only [UserVariant.clearCache, h]
  rw [if_neg (by simp)]
  exact lookup_cacheDelete_self _ _

/-- `getFromCache` misses whenever the key is absent (or caching is
disabled). -/
theorem getFromCache_miss {α : Type} (en : Bool) (ttl : ℤ) (c : Cache α)
    (key : String) (now : ℤ) (h : en = true → List.lookup key c = none) :
    getFromCache en ttl c key now = (none, c) := by
  cases en with
  | false => simp [getFromCache]
  | true => simp [getFromCache, h rfl]

/-- `GET /` (global) on a state whose record key misses returns the
stored row. -/
theorem gGetTheme_miss (cfg : Config) (s : GlobalVariant.GState) (now : ℤ)
    (h : cfg.enableCaching = true →
      List.lookup GlobalVariant.getCacheKey s.cache = none) :
    (GlobalVariant.getThemeRoute cfg s now).1 = s.store.map Sum.inl := by
  have hm := getFromCache_miss cfg.enableCaching cfg.cacheTTL s.cache
    GlobalVariant.getCacheKey now h
  simp [GlobalVariant.getThemeRoute, hm, payloadTruthy]

/-- `GET /css` (global) on a state whose CSS key misses renders the
stored row (404 when the table is empty). -/
theorem gGetCss_miss (cfg : Config) (L : ColorLib) (s : GlobalVariant.GState)
    (now : ℤ)
    (h : cfg.enableCaching = true →
      List.lookup GlobalVariant.cssCacheKey s.cache = none) :
    (GlobalVariant.getCssRoute cfg L s now).1 = gCssExpected L s.store := by
  have hm := getFromCache_miss cfg.enableCaching cfg.cacheTTL s.cache
    GlobalVariant.cssCacheKey now h
  cases hs : s.store with
  | none => simp [GlobalVariant.getCssRoute, gCssExpected, hm, payloadTruthy, hs]
  | some t => simp [GlobalVariant.getCssRoute, gCssExpected, hm, payloadTruthy, hs]

/-- `GET /` (user) on a state whose record key misses returns the user's
row, or the freshly created-and-inserted default when absent. -/
theorem uGetTheme_miss (cfg : Config) (s : UserVariant.UState) (uid : String)
    (now : ℤ)
    (h : cfg.enableCaching = true →
      List.lookup (UserVariant.getCacheKey uid) s.cache = none) :
    (UserVariant.getThemeRoute cfg s uid now).1 =
      some (.inl ((List.lookup uid s.store).getD (UserVariant.createDefaultTheme uid))) := by
  have hm := getFromCache_miss cfg.enableCaching cfg.cacheTTL s.cache
    (UserVariant.getCacheKey uid) now h
  cases hs : List.lookup uid s.store with
  | none => simp [UserVariant.getThemeRoute, hm, payloadTruthy, hs]
  | some t => simp [UserVariant.getThemeRoute, hm, payloadTruthy, hs]

/-- `GET /css` (user) on a state whose CSS key misses renders the user's
row (404 when absent). -/
theorem uGetCss_miss (cfg : Config) (L : ColorLib) (s : UserVariant.UState)
    (uid : String) (now : ℤ)
    (h : cfg.enableCaching = true →
      List.lookup (UserVariant.getCacheKey ("css_" ++ uid)) s.cache = none) :
    (UserVariant.getCssRoute cfg L s uid now).1 =
      uCssExpected L (List.lookup uid s.store) := by
  have hm := getFromCache_miss cfg.enableCaching cfg.cacheTTL s.cache
    (UserVariant.getCacheKey ("css_" ++ uid)) now h
  cases hs : List.lookup uid s.store with
  | none => simp [UserVariant.getCssRoute, uCssExpected, hm, payloadTruthy, hs]
  | some t => simp [UserVariant.getCssRoute, uCssExpected, hm, payloadTruthy, hs]

/-- The unique user row just written by `storeSet` is what a lookup
finds. -/
theorem lookup_storeSet_self (l : List (String × UserVariant.Theme))
    (k : String) (v : UserVariant.Theme) :
    List.lookup k (UserVariant.storeSet l k v) = some v := by
  simp [UserVariant.storeSet, List.lookup]

/-- Every possible result of the global `GET /css` handler: either the
404 error, or an ok response whose headers are the two literals the
handler writes. -/
theorem gCssRoute_shape (cfg : Config) (L : ColorLib) (s : GlobalVariant.GState)
    (now : ℤ) :
    (GlobalVariant.getCssRoute cfg L s now).1 = .error ⟨404, "Theme not found", none⟩ ∨
    ∃ b, (GlobalVariant.getCssRoute cfg L s now).1 =
      .ok ⟨b, "text/css", "public, max-age=300"⟩ := by
  rcases hq : getFromCache cfg.enableCaching cfg.cacheTTL s.cache
    GlobalVariant.cssCacheKey now with ⟨p1, c1⟩
  rcases p1 with _ | (_ | (t | str))
  · cases hs : s.store with
    | none => left; simp [GlobalVariant.getCssRoute, hq, payloadTruthy, hs]
    | some t =>
      right
      exact ⟨.inr (GlobalVariant.renderCss L t),
        by simp [GlobalVariant.getCssRoute, hq, payloadTruthy, hs]⟩
  · cases hs : s.store with
    | none => left; simp [GlobalVariant.getCssRoute, hq, payloadTruthy, hs]
    | some t =>
      right
      exact ⟨.inr (GlobalVariant.renderCss L t),
        by simp [GlobalVariant.getCssRoute, hq, payloadTruthy, hs]⟩
  · right
    exact ⟨.inl t, by simp [GlobalVariant.getCssRoute, hq, payloadTruthy]⟩
  · by_cases hstr : str = ""
    · cases hs : s.store with
      | none => left; simp [GlobalVariant.getCssRoute, hq, payloadTruthy, hstr, hs]
      | some t =>
        right
        exact ⟨.inr (GlobalVariant.renderCss L t),
          by simp [GlobalVariant.getCssRoute, hq, payloadTruthy, hstr, hs]⟩
    · right
      exact ⟨.inr str, by
        simp [GlobalVariant.getCssRoute, hq, payloadTruthy,
          beq_eq_false_iff_ne.mpr hstr]⟩

/-- Every possible result of the user `GET /css` handler. -/
theorem uCssRoute_shape (cfg : Config) (L : ColorLib) (s : UserVariant.UState)
    (uid : String) (now : ℤ) :
    (UserVariant.getCssRoute cfg L s uid now).1 = .error ⟨404, "Theme not found", none⟩ ∨
    ∃ b, (UserVariant.getCssRoute cfg L s uid now).1 =
      .ok ⟨b, "text/css", "public, max-age=300"⟩ := by
  rcases hq : getFromCache cfg.enableCaching cfg.cacheTTL s.cache
    (UserVariant.getCacheKey ("css_" ++ uid)) now with ⟨p1, c1⟩
  rcases p1 with _ | (_ | (t | str))
  · cases hs : List.lookup uid s.store with
    | none => left; simp [UserVariant.getCssRoute, hq, payloadTruthy, hs]
    | some t =>
      right
      exact ⟨.inr (UserVariant.renderCss L t),
        by simp [UserVariant.getCssRoute, hq, payloadTruthy, hs]⟩
  · cases hs : List.lookup uid s.store with
    | none => left; simp [UserVariant.getCssRoute, hq, payloadTruthy, hs]
    | some t =>
      right
      exact ⟨.inr (UserVariant.renderCss L t),
        by simp [UserVariant.getCssRoute, hq, payloadTruthy, hs]⟩
  · right
    exact ⟨.inl t, by simp [UserVariant.getCssRoute, hq, payloadTruthy]⟩
  · by_cases hstr : str = ""
    · cases hs : List.lookup uid s.store with
      | none => left; simp [UserVariant.getCssRoute, hq, payloadTruthy, hstr, hs]
      | some t =>
        right
        exact ⟨.inr (UserVariant.renderCss L t),
          by simp [UserVariant.getCssRoute, hq, payloadTruthy, hstr, hs]⟩
    · right
      exact ⟨.inr str, by
        simp [UserVariant.getCssRoute, hq, payloadTruthy,
          beq_eq_false_iff_ne.mpr hstr]⟩

/-- Claim C7 as stated is false: the `Cache-Control` header does NOT
track the TTL configured at construction.  With `cacheTTL = 600000` ms
(600 s) the successful stylesheet read still advertises the hard-coded
`public, max-age=300`. -/
theorem C7_counterexample :
    (GlobalVariant.getCssRoute ⟨true, 600000⟩ stubColorLib
        ⟨some GlobalVariant.createDefaultTheme, []⟩ 0).1 =
      .ok ⟨.inr (GlobalVariant.renderCss stubColorLib GlobalVariant.createDefaultTheme),
           "text/css", "public, max-age=300"⟩ ∧
    "public, max-age=300" ≠ "public, max-age=600" := by
  constructor
  · rfl
  · decide

/-- Claim C7, amended: every successful stylesheet read (either variant)
responds with content type `text/css` and the CONSTANT header
`Cache-Control: public, max-age=300` — which coincides with the default
TTL of 300 000 ms but is independent of the configured TTL. -/
theorem C7_css_headers :
    (∀ (cfg : Config) (L : ColorLib) (s : GlobalVariant.GState) (now : ℤ)
       (ok : GlobalVariant.CssOk) (s' : GlobalVariant.GState),
      GlobalVariant.getCssRoute cfg L s now = (.ok ok, s') →
      ok.contentType = "text/css" ∧ ok.cacheControl = "public, max-age=300") ∧
    (∀ (cfg : Config) (L : ColorLib) (s : UserVariant.UState) (uid : String)
       (now : ℤ) (ok : UserVariant.CssOk) (s' : UserVariant.UState),
      UserVariant.getCssRoute cfg L s uid now = (.ok ok, s') →
      ok.contentType = "text/css" ∧ ok.cacheControl = "public, max-age=300") := by
  constructor
  · intro cfg L s now ok s' h
    have h1 : (GlobalVariant.getCssRoute cfg L s now).1 = .ok ok := by rw [h]
    rcases gCssRoute_shape cfg L s now with he | ⟨b, hb⟩
    · rw [h1] at he
      exact absurd he (by simp)
    · rw [h1] at hb
      obtain rfl : ok = ⟨b, "text/css", "public, max-age=300"⟩ := by
        simpa using hb
      exact ⟨rfl, rfl⟩
  · intro cfg L s uid now ok s' h
    have h1 : (UserVariant.getCssRoute cfg L s uid now).1 = .ok ok := by rw [h]
    rcases uCssRoute_shape cfg L s uid now with he | ⟨b, hb⟩
    · rw [h1] at he
      exact absurd he (by simp)
    · rw [h1] at hb
      obtain rfl : ok = ⟨b, "text/css", "public, max-age=300"⟩ := by
        simpa using hb
      exact ⟨rfl, rfl⟩

theorem C7_css_headers_witness :
    (∃ ok s', GlobalVariant.getCssRoute ⟨true, 300000⟩ stubColorLib
        ⟨some GlobalVariant.createDefaultTheme, []⟩ 0 = (.ok ok, s') ∧
      ok.contentType = "text/css" ∧ ok.cacheControl = "public, max-age=300") ∧
    (∃ ok s', UserVariant.getCssRoute ⟨true, 300000⟩ stubColorLib
        ⟨[("7", UserVariant.createDefaultTheme "7")], []⟩ "7" 0 = (.ok ok, s') ∧
      ok.contentType = "text/css" ∧ ok.cacheControl = "public, max-age=300") :=
  ⟨⟨_, _, rfl, C7_css_headers.1 ⟨true, 300000⟩ stubColorLib
      ⟨some GlobalVariant.createDefaultTheme, []⟩ 0 _ _ rfl⟩,
   ⟨_, _, rfl, C7_css_headers.2 ⟨true, 300000⟩ stubColorLib
      ⟨[("7", UserVariant.createDefaultTheme "7")], []⟩ "7" 0 _ _ rfl⟩⟩

/-- Claim C9: CSS rendering is pure and deterministic.  The stylesheet
produced for a stored theme `t` is `renderCss L t`, a pure function of
the record (and of the color library): two reads through the route — at
different times, under different cache configurations and from different
cache states (none of which holds a stale CSS entry) — return
byte-identical text. -/
theorem C9_render_deterministic (cfg1 cfg2 : Config) (L : ColorLib)
    (s1 s2 : GlobalVariant.GState) (t : GlobalVariant.Theme) (now1 now2 : ℤ)
    (hs1 : s1.store = some t) (hs2 : s2.store = some t)
    (hm1 : List.lookup GlobalVariant.cssCacheKey s1.cache = none)
    (hm2 : List.lookup GlobalVariant.cssCacheKey s2.cache = none) :
    (GlobalVariant.getCssRoute cfg1 L s1 now1).1 =
      (GlobalVariant.getCssRoute cfg2 L s2 now2).1 ∧
    (GlobalVariant.getCssRoute cfg1 L s1 now1).1 =
      .ok ⟨.inr (GlobalVariant.renderCss L t), "text/css", "public, max-age=300"⟩ := by
  have h1 := gGetCss_miss cfg1 L s1 now1 (fun _ => hm1)
  have h2 := gGetCss_miss cfg2 L s2 now2 (fun _ => hm2)
  rw [hs1] at h1
  rw [hs2] at h2
  exact ⟨by rw [h1, h2], h1⟩

theorem C9_render_deterministic_witness :
    (GlobalVariant.getCssRoute ⟨true, 300000⟩ stubColorLib
        ⟨some GlobalVariant.createDefaultTheme, []⟩ 0).1 =
      (GlobalVariant.getCssRoute ⟨false, 1⟩ stubColorLib
        ⟨some GlobalVariant.createDefaultTheme,
         [(GlobalVariant.getCacheKey, ⟨none, 0⟩)]⟩ 999).1 ∧
    (GlobalVariant.getCssRoute ⟨true, 300000⟩ stubColorLib
        ⟨some GlobalVariant.createDefaultTheme, []⟩ 0).1 =
      .ok ⟨.inr (GlobalVariant.renderCss stubColorLib GlobalVariant.createDefaultTheme),
           "text/css", "public, max-age=300"⟩ :=
  C9_render_deterministic ⟨true, 300000⟩ ⟨false, 1⟩ stubColorLib
    ⟨some GlobalVariant.createDefaultTheme, []⟩
    ⟨some GlobalVariant.createDefaultTheme,
     [(GlobalVariant.getCacheKey, ⟨none, 0⟩)]⟩
    GlobalVariant.createDefaultTheme 0 999 rfl rfl rfl (by decide)

/-- Claim C1 as stated is false for the user-scoped variant: the upsert
body carries `radius: 0` — a field PRESENT in the partial update — yet
the persisted record holds the hard default `0.5`, because the handler
computes `themeData.radius || 0.5` and `0` is falsy. -/
theorem C1_counterexample :
    (UserVariant.postThemeRoute ⟨true, 300000⟩ ⟨[], []⟩ "7" pC1).1 =
      .ok (UserVariant.buildUpdateData "7" pC1 UserVariant.DEFAULT_THEME_COLORS) ∧
    pC1.radius = some 0 ∧
    (UserVariant.buildUpdateData "7" pC1 UserVariant.DEFAULT_THEME_COLORS).radius = 1/2 ∧
    (1/2 : ℚ) ≠ 0 := by
  refine ⟨rfl, rfl, ?_, by norm_num⟩
  simp [UserVariant.buildUpdateData, jsOrNum, pC1]

/-- Claim C1, amended: an accepted upsert persists, and a subsequent get
returns, the merged record in which — global variant — every field
present in the partial overrides and every absent field keeps the
previous stored record's value, and — user variant — every absent field
falls back to the hard default, a present `colors`/`shadows`/`fonts`
always overrides, while a present `name`/`radius` overrides only when
truthy (an empty name or zero radius falls back to the default, per the
`||` merge). -/
theorem C1_upsert_merge :
    (∀ (cfg : Config) (s : GlobalVariant.GState) (prev : GlobalVariant.Theme)
       (p : PartialTheme) (now : ℤ),
      s.store = some prev →
      GlobalVariant.validateThemeData p = none →
      ∃ s' t,
        GlobalVariant.postThemeRoute cfg s p = (.ok (some t), s') ∧
        (GlobalVariant.getThemeRoute cfg s' now).1 = some (.inl t) ∧
        t.name = p.name.getD prev.name ∧
        t.colors = p.colors.getD prev.colors ∧
        t.radius = p.radius.getD prev.radius ∧
        t.shadows = p.shadows.getD prev.shadows ∧
        t.fonts = p.fonts.getD prev.fonts ∧
        t.logo = prev.logo) ∧
    (∀ (cfg : Config) (s : UserVariant.UState) (uid : String) (p : PartialTheme)
       (cs : ThemeColors) (now : ℤ),
      p.colors = some cs →
      UserVariant.validateThemeData p = none →
      ∃ s' t,
        UserVariant.postThemeRoute cfg s uid p = (.ok t, s') ∧
        (UserVariant.getThemeRoute cfg s' uid now).1 = some (.inl t) ∧
        t.userId = uid ∧
        t.name = jsOrStr p.name "My Theme" ∧
        t.colors = cs ∧
        t.radius = jsOrNum p.radius (1/2) ∧
        t.shadows = p.shadows.getD UserVariant.DEFAULT_SHADOWS ∧
        t.fonts = p.fonts.getD UserVariant.DEFAULT_FONTS) := by
  constructor
  · intro cfg s prev p now hs hv
    refine ⟨⟨some (GlobalVariant.applyPatch prev p), GlobalVariant.clearCache cfg s.cache⟩,
      GlobalVariant.applyPatch prev p, ?_, ?_, rfl, rfl, rfl, rfl, rfl, rfl⟩
    · simp [GlobalVariant.postThemeRoute, hv, hs]
    · have hget := gGetTheme_miss cfg
        ⟨some (GlobalVariant.applyPatch prev p), GlobalVariant.clearCache cfg s.cache⟩
        now (fun hen => gClear_lookup_theme cfg s.cache hen)
      simpa using hget
  · intro cfg s uid p cs now hc hv
    refine ⟨⟨UserVariant.storeSet s.store uid (UserVariant.buildUpdateData uid p cs),
             UserVariant.clearCache cfg s.cache uid⟩,
      UserVariant.buildUpdateData uid p cs, ?_, ?_, rfl, rfl, rfl, rfl, rfl, rfl⟩
    · cases hl : List.lookup uid s.store with
      | none => simp [UserVariant.postThemeRoute, hc, hv, hl]
      | some t0 => simp [UserVariant.postThemeRoute, hc, hv, hl]
    · have hget := uGetTheme_miss cfg
        ⟨UserVariant.storeSet s.store uid (UserVariant.buildUpdateData uid p cs),
         UserVariant.clearCache cfg s.cache uid⟩
        uid now (fun hen => uClear_lookup_theme cfg s.cache uid hen)
      rw [hget]
      simp [lookup_storeSet_self]

theorem C1_upsert_merge_witness :
    (∃ s' t,
      GlobalVariant.postThemeRoute ⟨true, 300000⟩
          ⟨some GlobalVariant.createDefaultTheme, []⟩ { name := some "Mine" } =
        (.ok (some t), s') ∧
      (GlobalVariant.getThemeRoute ⟨true, 300000⟩ s' 5).1 = some (.inl t) ∧
      t.name = (some "Mine").getD GlobalVariant.createDefaultTheme.name ∧
      t.colors = (none : Option ThemeColors).getD GlobalVariant.createDefaultTheme.colors ∧
      t.radius = (none : Option ℚ).getD GlobalVariant.createDefaultTheme.radius ∧
      t.shadows = (none : Option ThemeShadows).getD GlobalVariant.createDefaultTheme.shadows ∧
      t.fonts = (none : Option ThemeFonts).getD GlobalVariant.createDefaultTheme.fonts ∧
      t.logo = GlobalVariant.createDefaultTheme.logo) ∧
    (∃ s' t,
      UserVariant.postThemeRoute ⟨true, 300000⟩ ⟨[], []⟩ "7"
          { colors := some UserVariant.DEFAULT_THEME_COLORS } = (.ok t, s') ∧
      (UserVariant.getThemeRoute ⟨true, 300000⟩ s' "7" 5).1 = some (.inl t) ∧
      t.userId = "7" ∧
      t.name = jsOrStr none "My Theme" ∧
      t.colors = UserVariant.DEFAULT_THEME_COLORS ∧
      t.radius = jsOrNum none (1/2) ∧
      t.shadows = (none : Option ThemeShadows).getD UserVariant.DEFAULT_SHADOWS ∧
      t.fonts = (none : Option ThemeFonts).getD UserVariant.DEFAULT_FONTS) :=
  ⟨C1_upsert_merge.1 ⟨true, 300000⟩ ⟨some GlobalVariant.createDefaultTheme, []⟩
      GlobalVariant.createDefaultTheme { name := some "Mine" } 5 rfl rfl,
   C1_upsert_merge.2 ⟨true, 300000⟩ ⟨[], []⟩ "7"
      { colors := some UserVariant.DEFAULT_THEME_COLORS }
      UserVariant.DEFAULT_THEME_COLORS 5 rfl (by decide)⟩

theorem lookup_cacheSet_self {α : Type} (c : Cache α) (k : String)
    (e : CacheEntry α) : List.lookup k (cacheSet c k e) = some e := by
  simp [cacheSet, List.lookup]

theorem lookup_cacheSet_ne {α : Type} (c : Cache α) {k k' : String}
    (e : CacheEntry α) (h : k' ≠ k) :
    List.lookup k' (cacheSet c k e) = List.lookup k' c := by
  have hk : (k' == k) = false := beq_eq_false_iff_ne.mpr h
  simp only [cacheSet, List.lookup, hk]
  exact lookup_cacheDelete_ne c h

theorem lookup_cacheDelete_any {α : Type} (c : Cache α) {k k' : String}
    {e : CacheEntry α} (h : List.lookup k' (cacheDelete c k) = some e) :
    List.lookup k' c = some e := by
  by_cases hk : k' = k
  · rw [hk, lookup_cacheDelete_self] at h
    exact absurd h (by simp)
  · rwa [lookup_cacheDelete_ne c hk] at h

theorem gCacheOK_delete (L : ColorLib) (st : Option GlobalVariant.Theme)
    (c : Cache GlobalVariant.GPayload) (k : String) (h : gCacheOK L st c) :
    gCacheOK L st (cacheDelete c k) :=
  ⟨fun e he => h.1 e (lookup_cacheDelete_any c he),
   fun e he => h.2 e (lookup_cacheDelete_any c he)⟩

theorem gCacheOK_setTheme (L : ColorLib) (st : Option GlobalVariant.Theme)
    (c : Cache GlobalVariant.GPayload) (en : Bool) (ts : ℤ)
    (h : gCacheOK L st c) :
    gCacheOK L st (setCache en c GlobalVariant.getCacheKey (st.map Sum.inl) ts) := by
  cases en with
  | false => simpa [setCache] using h
  | true =>
    refine ⟨fun e he => ?_, fun e he => ?_⟩
    · rw [show setCache true c GlobalVariant.getCacheKey (st.map Sum.inl) ts =
          cacheSet c GlobalVariant.getCacheKey ⟨st.map Sum.inl, ts⟩ from rfl,
        lookup_cacheSet_self] at he
      cases he
      rfl
    · rw [show setCache true c GlobalVariant.getCacheKey (st.map Sum.inl) ts =
          cacheSet c GlobalVariant.getCacheKey ⟨st.map Sum.inl, ts⟩ from rfl,
        lookup_cacheSet_ne c _ (Ne.symm gKeys_ne)] at he
      exact h.2 e he

theorem gCacheOK_setCss (L : ColorLib) (t : GlobalVariant.Theme)
    (c : Cache GlobalVariant.GPayload) (en : Bool) (ts : ℤ)
    (h : gCacheOK L (some t) c) :
    gCacheOK L (some t)
      (setCache en c GlobalVariant.cssCacheKey
        (some (.inr (GlobalVariant.renderCss L t))) ts) := by
  cases en with
  | false => simpa [setCache] using h
  | true =>
    refine ⟨fun e he => ?_, fun e he => ?_⟩
    · rw [show setCache true c GlobalVariant.cssCacheKey
          (some (.inr (GlobalVariant.renderCss L t))) ts =
          cacheSet c GlobalVariant.cssCacheKey
            ⟨some (.inr (GlobalVariant.renderCss L t)), ts⟩ from rfl,
        lookup_cacheSet_ne c _ gKeys_ne] at he
      exact h.1 e he
    · rw [show setCache true c GlobalVariant.cssCacheKey
          (some (.inr (GlobalVariant.renderCss L t))) ts =
          cacheSet c GlobalVariant.cssCacheKey
            ⟨some (.inr (GlobalVariant.renderCss L t)), ts⟩ from rfl,
        lookup_cacheSet_self] at he
      cases he
      rfl

theorem uCacheOK_delete (L : ColorLib) (uid : String) (ut : UserVariant.Theme)
    (c : Cache UserVariant.UPayload) (k : String) (h : uCacheOK L uid ut c) :
    uCacheOK L uid ut (cacheDelete c k) :=
  ⟨fun e he => h.1 e (lookup_cacheDelete_any c he),
   fun e he => h.2 e (lookup_cacheDelete_any c he)⟩

theorem uCacheOK_setTheme (L : ColorLib) (uid : String) (ut : UserVariant.Theme)
    (c : Cache UserVariant.UPayload) (en : Bool) (ts : ℤ)
    (h : uCacheOK L uid ut c) :
    uCacheOK L uid ut
      (setCache en c (UserVariant.getCacheKey uid) (some (.inl ut)) ts) := by
  cases en with
  | false => simpa [setCache] using h
  | true =>
    refine ⟨fun e he => ?_, fun e he => ?_⟩
    · rw [show setCache true c (UserVariant.getCacheKey uid) (some (.inl ut)) ts =
          cacheSet c (UserVariant.getCacheKey uid) ⟨some (.inl ut), ts⟩ from rfl,
        lookup_cacheSet_self] at he
      cases he
      rfl
    · rw [show setCache true c (UserVariant.getCacheKey uid) (some (.inl ut)) ts =
          cacheSet c (UserVariant.getCacheKey uid) ⟨some (.inl ut), ts⟩ from rfl,
        lookup_cacheSet_ne c _ (Ne.symm (uKeys_ne uid))] at he
      exact h.2 e he

theorem uCacheOK_setCss (L : ColorLib) (uid : String) (ut : UserVariant.Theme)
    (c : Cache UserVariant.UPayload) (en : Bool) (ts : ℤ)
    (h : uCacheOK L uid ut c) :
    uCacheOK L uid ut
      (setCache en c (UserVariant.getCacheKey ("css_" ++ uid))
        (some (.inr (UserVariant.renderCss L ut))) ts) := by
  cases en with
  | false => simpa [setCache] using h
  | true =>
    refine ⟨fun e he => ?_, fun e he => ?_⟩
    · rw [show setCache true c (UserVariant.getCacheKey ("css_" ++ uid))
          (some (.inr (UserVariant.renderCss L ut))) ts =
          cacheSet c (UserVariant.getCacheKey ("css_" ++ uid))
            ⟨some (.inr (UserVariant.renderCss L ut)), ts⟩ from rfl,
        lookup_cacheSet_ne c _ (uKeys_ne uid)] at he
      exact h.1 e he
    · rw [show setCache true c (UserVariant.getCacheKey ("css_" ++ uid))
          (some (.inr (UserVariant.renderCss L ut))) ts =
          cacheSet c (UserVariant.getCacheKey ("css_" ++ uid))
            ⟨some (.inr (UserVariant.renderCss L ut)), ts⟩ from rfl,
        lookup_cacheSet_self] at he
      cases he
      rfl


theorem getFromCache_cases {α : Type} (en : Bool) (ttl : ℤ) (c : Cache α)
    (key : String) (now : ℤ) :
    getFromCache en ttl c key now = (none, c) ∨
    getFromCache en ttl c key now = (none, cacheDelete c key) ∨
    ∃ e, List.lookup key c = some e ∧ en = true ∧
      getFromCache en ttl c key now = (some e.data, c) := by
  cases en with
  | false => left; simp [getFromCache]
  | true =>
    cases hl : List.lookup key c with
    | none => left; simp [getFromCache, hl]
    | some e =>
      by_cases hexp : now - e.timestamp > ttl
      · right; left; simp [getFromCache, hl, hexp]
      · right; right; exact ⟨e, rfl, rfl, by simp [getFromCache, hl, hexp]⟩

theorem gTheme_read_coherent (cfg : Config) (L : ColorLib)
    (st : Option GlobalVariant.Theme) (s : GlobalVariant.GState) (now : ℤ)
    (h : gCoherent cfg L st s) :
    (GlobalVariant.getThemeRoute cfg s now).1 = st.map Sum.inl ∧
    gCoherent cfg L st (GlobalVariant.getThemeRoute cfg s now).2 := by
  obtain ⟨store, cache⟩ := s
  obtain ⟨hst, hc⟩ := h
  simp only at hst
  subst hst
  rcases getFromCache_cases cfg.enableCaching cfg.cacheTTL cache
    GlobalVariant.getCacheKey now with hm | hm | ⟨e, hl, hen, hm⟩
  · refine ⟨by simp [GlobalVariant.getThemeRoute, hm, payloadTruthy],
      by simp [GlobalVariant.getThemeRoute, hm, payloadTruthy], fun hen2 => ?_⟩
    simpa [GlobalVariant.getThemeRoute, hm, payloadTruthy] using
      gCacheOK_setTheme L store cache cfg.enableCaching now (hc hen2)
  · refine ⟨by simp [GlobalVariant.getThemeRoute, hm, payloadTruthy],
      by simp [GlobalVariant.getThemeRoute, hm, payloadTruthy], fun hen2 => ?_⟩
    simpa [GlobalVariant.getThemeRoute, hm, payloadTruthy] using
      gCacheOK_setTheme L store (cacheDelete cache GlobalVariant.getCacheKey)
        cfg.enableCaching now
        (gCacheOK_delete L store cache GlobalVariant.getCacheKey (hc hen2))
  · have hdata : e.data = store.map Sum.inl := (hc hen).1 e hl
    cases store with
    | none =>
      simp only [Option.map_none'] at hdata
      refine ⟨by simp [GlobalVariant.getThemeRoute, hm, hdata, payloadTruthy],
        by simp [GlobalVariant.getThemeRoute, hm, hdata, payloadTruthy], fun hen2 => ?_⟩
      simpa [GlobalVariant.getThemeRoute, hm, hdata, payloadTruthy] using
        gCacheOK_setTheme L none cache cfg.enableCaching now (hc hen2)
    | some t =>
      simp only [Option.map_some'] at hdata
      refine ⟨by simp [GlobalVariant.getThemeRoute, hm, hdata, payloadTruthy],
        by simp [GlobalVariant.getThemeRoute, hm, hdata, payloadTruthy], fun hen2 => ?_⟩
      simpa [GlobalVariant.getThemeRoute, hm, hdata, payloadTruthy] using hc hen2

theorem gCss_read_coherent (cfg : Config) (L : ColorLib)
    (st : Option GlobalVariant.Theme) (s : GlobalVariant.GState) (now : ℤ)
    (h : gCoherent cfg L st s) :
    (GlobalVariant.getCssRoute cfg L s now).1 = gCssExpected L st ∧
    gCoherent cfg L st (GlobalVariant.getCssRoute cfg L s now).2 := by
  obtain ⟨store, cache⟩ := s
  obtain ⟨hst, hc⟩ := h
  simp only at hst
  subst hst
  cases store with
  | none =>
    rcases getFromCache_cases cfg.enableCaching cfg.cacheTTL cache
      GlobalVariant.cssCacheKey now with hm | hm | ⟨e, hl, hen, hm⟩
    · refine ⟨by simp [GlobalVariant.getCssRoute, gCssExpected, hm, payloadTruthy],
        by simp [GlobalVariant.getCssRoute, gCssExpected, hm, payloadTruthy], fun hen2 => ?_⟩
      simpa [GlobalVariant.getCssRoute, gCssExpected, hm, payloadTruthy] using hc hen2
    · refine ⟨by simp [GlobalVariant.getCssRoute, gCssExpected, hm, payloadTruthy],
        by simp [GlobalVariant.getCssRoute, gCssExpected, hm, payloadTruthy], fun hen2 => ?_⟩
      simpa [GlobalVariant.getCssRoute, gCssExpected, hm, payloadTruthy] using
        gCacheOK_delete L none cache GlobalVariant.cssCacheKey (hc hen2)
    · have hdata : e.data = none := (hc hen).2 e hl
      refine ⟨by simp [GlobalVariant.getCssRoute, gCssExpected, hm, hdata, payloadTruthy],
        by simp [GlobalVariant.getCssRoute, gCssExpected, hm, hdata, payloadTruthy], fun hen2 => ?_⟩
      simpa [GlobalVariant.getCssRoute, gCssExpected, hm, hdata, payloadTruthy] using hc hen2
  | some t =>
    rcases getFromCache_cases cfg.enableCaching cfg.cacheTTL cache
      GlobalVariant.cssCacheKey now with hm | hm | ⟨e, hl, hen, hm⟩
    · refine ⟨by simp [GlobalVariant.getCssRoute, gCssExpected, hm, payloadTruthy],
        by simp [GlobalVariant.getCssRoute, gCssExpected, hm, payloadTruthy], fun hen2 => ?_⟩
      simpa [GlobalVariant.getCssRoute, gCssExpected, hm, payloadTruthy] using
        gCacheOK_setCss L t cache cfg.enableCaching now (hc hen2)
    · refine ⟨by simp [GlobalVariant.getCssRoute, gCssExpected, hm, payloadTruthy],
        by simp [GlobalVariant.getCssRoute, gCssExpected, hm, payloadTruthy], fun hen2 => ?_⟩
      simpa [GlobalVariant.getCssRoute, gCssExpected, hm, payloadTruthy] using
        gCacheOK_setCss L t (cacheDelete cache GlobalVariant.cssCacheKey)
          cfg.enableCaching now
          (gCacheOK_delete L (some t) cache GlobalVariant.cssCacheKey (hc hen2))
    · have hdata : e.data = some (.inr (GlobalVariant.renderCss L t)) := by
        simpa using (hc hen).2 e hl
      by_cases hre : GlobalVariant.renderCss L t = ""
      · refine ⟨by simp [GlobalVariant.getCssRoute, gCssExpected, hm, hdata, payloadTruthy, hre],
          by simp [GlobalVariant.getCssRoute, gCssExpected, hm, hdata, payloadTruthy, hre],
          fun hen2 => ?_⟩
        simpa [GlobalVariant.getCssRoute, gCssExpected, hm, hdata, payloadTruthy, hre] using
          gCacheOK_setCss L t cache cfg.enableCaching now (hc hen2)
      · have hre2 := beq_eq_false_iff_ne.mpr hre
        refine ⟨by simp [GlobalVariant.getCssRoute, gCssExpected, hm, hdata, payloadTruthy, hre2],
          by simp [GlobalVariant.getCssRoute, gCssExpected, hm, hdata, payloadTruthy, hre2],
          fun hen2 => ?_⟩
        simpa [GlobalVariant.getCssRoute, gCssExpected, hm, hdata, payloadTruthy, hre2] using hc hen2

theorem uTheme_read_coherent (cfg : Config) (L : ColorLib) (uid : String)
    (ut : UserVariant.Theme) (s : UserVariant.UState) (now : ℤ)
    (h : uCoherent cfg L uid ut s) :
    (UserVariant.getThemeRoute cfg s uid now).1 = some (.inl ut) ∧
    uCoherent cfg L uid ut (UserVariant.getThemeRoute cfg s uid now).2 := by
  obtain ⟨store, cache⟩ := s
  obtain ⟨hrow, hc⟩ := h
  simp only at hrow
  rcases getFromCache_cases cfg.enableCaching cfg.cacheTTL cache
    (UserVariant.getCacheKey uid) now with hm | hm | ⟨e, hl, hen, hm⟩
  · refine ⟨by simp [UserVariant.getThemeRoute, hm, payloadTruthy, hrow],
      by simp [UserVariant.getThemeRoute, hm, payloadTruthy, hrow, hrow], fun hen2 => ?_⟩
    simpa [UserVariant.getThemeRoute, hm, payloadTruthy, hrow] using
      uCacheOK_setTheme L uid ut cache cfg.enableCaching now (hc hen2)
  · refine ⟨by simp [UserVariant.getThemeRoute, hm, payloadTruthy, hrow],
      by simp [UserVariant.getThemeRoute, hm, payloadTruthy, hrow, hrow], fun hen2 => ?_⟩
    simpa [UserVariant.getThemeRoute, hm, payloadTruthy, hrow] using
      uCacheOK_setTheme L uid ut (cacheDelete cache (UserVariant.getCacheKey uid))
        cfg.enableCaching now
        (uCacheOK_delete L uid ut cache (UserVariant.getCacheKey uid) (hc hen2))
  · have hdata : e.data = some (.inl ut) := (hc hen).1 e hl
    refine ⟨by simp [UserVariant.getThemeRoute, hm, hdata, payloadTruthy],
      by simp [UserVariant.getThemeRoute, hm, hdata, payloadTruthy, hrow], fun hen2 => ?_⟩
    simpa [UserVariant.getThemeRoute, hm, hdata, payloadTruthy] using hc hen2

theorem uCss_read_coherent (cfg : Config) (L : ColorLib) (uid : String)
    (ut : UserVariant.Theme) (s : UserVariant.UState) (now : ℤ)
    (h : uCoherent cfg L uid ut s) :
    (UserVariant.getCssRoute cfg L s uid now).1 =
      .ok ⟨.inr (UserVariant.renderCss L ut), "text/css", "public, max-age=300"⟩ ∧
    uCoherent cfg L uid ut (UserVariant.getCssRoute cfg L s uid now).2 := by
  obtain ⟨store, cache⟩ := s
  obtain ⟨hrow, hc⟩ := h
  simp only at hrow
  rcases getFromCache_cases cfg.enableCaching cfg.cacheTTL cache
    (UserVariant.getCacheKey ("css_" ++ uid)) now with hm | hm | ⟨e, hl, hen, hm⟩
  · refine ⟨by simp [UserVariant.getCssRoute, hm, payloadTruthy, hrow],
      by simp [UserVariant.getCssRoute, hm, payloadTruthy, hrow, hrow], fun hen2 => ?_⟩
    simpa [UserVariant.getCssRoute, hm, payloadTruthy, hrow] using
      uCacheOK_setCss L uid ut cache cfg.enableCaching now (hc hen2)
  · refine ⟨by simp [UserVariant.getCssRoute, hm, payloadTruthy, hrow],
      by simp [UserVariant.getCssRoute, hm, payloadTruthy, hrow, hrow], fun hen2 => ?_⟩
    simpa [UserVariant.getCssRoute, hm, payloadTruthy, hrow] using
      uCacheOK_setCss L uid ut
        (cacheDelete cache (UserVariant.getCacheKey ("css_" ++ uid)))
        cfg.enableCaching now
        (uCacheOK_delete L uid ut cache (UserVariant.getCacheKey ("css_" ++ uid)) (hc hen2))
  · have hdata : e.data = some (.inr (UserVariant.renderCss L ut)) := (hc hen).2 e hl
    by_cases hre : UserVariant.renderCss L ut = ""
    · refine ⟨by simp [UserVariant.getCssRoute, hm, hdata, payloadTruthy, hre, hrow],
        by simp [UserVariant.getCssRoute, hm, hdata, payloadTruthy, hre, hrow, hrow],
        fun hen2 => ?_⟩
      simpa [UserVariant.getCssRoute, hm, hdata, payloadTruthy, hre, hrow] using
        uCacheOK_setCss L uid ut cache cfg.enableCaching now (hc hen2)
    · have hre2 := beq_eq_false_iff_ne.mpr hre
      refine ⟨by simp [UserVariant.getCssRoute, hm, hdata, payloadTruthy, hre2],
        by simp [UserVariant.getCssRoute, hm, hdata, payloadTruthy, hre2, hrow],
        fun hen2 => ?_⟩
      simpa [UserVariant.getCssRoute, hm, hdata, payloadTruthy, hre2] using hc hen2

theorem gRun_coherent (cfg : Config) (L : ColorLib)
    (st : Option GlobalVariant.Theme) (ops : List (ReadReq × ℤ)) :
    ∀ s, gCoherent cfg L st s → gCoherent cfg L st (gRunReads cfg L s ops) := by
  induction ops with
  | nil => intro s h; exact h
  | cons q rest ih =>
    intro s h
    have hstep : gCoherent cfg L st (gReadStep cfg L s q) := by
      cases hq : q.1 with
      | theme =>
        simpa [gReadStep, hq] using (gTheme_read_coherent cfg L st s q.2 h).2
      | css =>
        simpa [gReadStep, hq] using (gCss_read_coherent cfg L st s q.2 h).2
    simpa [gRunReads, List.foldl_cons] using ih (gReadStep cfg L s q) hstep

theorem uRun_coherent (cfg : Config) (L : ColorLib) (uid : String)
    (ut : UserVariant.Theme) (ops : List (ReadReq × ℤ)) :
    ∀ s, uCoherent cfg L uid ut s →
      uCoherent cfg L uid ut (uRunReads cfg L uid s ops) := by
  induction ops with
  | nil => intro s h; exact h
  | cons q rest ih =>
    intro s h
    have hstep : uCoherent cfg L uid ut (uReadStep cfg L uid s q) := by
      cases hq : q.1 with
      | theme =>
        simpa [uReadStep, hq] using (uTheme_read_coherent cfg L uid ut s q.2 h).2
      | css =>
        simpa [uReadStep, hq] using (uCss_read_coherent cfg L uid ut s q.2 h).2
    simpa [uRunReads, List.foldl_cons] using ih (uReadStep cfg L uid s q) hstep

/-- A state whose cache has just been cleared (global variant) is
coherent with respect to its own row. -/
theorem gCoherent_clear (cfg : Config) (L : ColorLib)
    (st : Option GlobalVariant.Theme) (c : Cache GlobalVariant.GPayload) :
    gCoherent cfg L st ⟨st, GlobalVariant.clearCache cfg c⟩ := by
  refine ⟨rfl, fun hen => ⟨fun e he => ?_, fun e he => ?_⟩⟩
  · rw [show (⟨st, GlobalVariant.clearCache cfg c⟩ : GlobalVariant.GState).cache =
      GlobalVariant.clearCache cfg c from rfl, gClear_lookup_theme cfg c hen] at he
    exact absurd he (by simp)
  · rw [show (⟨st, GlobalVariant.clearCache cfg c⟩ : GlobalVariant.GState).cache =
      GlobalVariant.clearCache cfg c from rfl, gClear_lookup_css cfg c hen] at he
    exact absurd he (by simp)

/-- A state whose cache has just been cleared for `uid` (user variant)
and whose table holds the row `ut` for `uid` is coherent. -/
theorem uCoherent_clear (cfg : Config) (L : ColorLib) (uid : String)
    (ut : UserVariant.Theme) (store : List (String × UserVariant.Theme))
    (c : Cache UserVariant.UPayload)
    (hrow : List.lookup uid store = some ut) :
    uCoherent cfg L uid ut ⟨store, UserVariant.clearCache cfg c uid⟩ := by
  refine ⟨hrow, fun hen => ⟨fun e he => ?_, fun e he => ?_⟩⟩
  · rw [show (⟨store, UserVariant.clearCache cfg c uid⟩ : UserVariant.UState).cache =
      UserVariant.clearCache cfg c uid from rfl, uClear_lookup_theme cfg c uid hen] at he
    exact absurd he (by simp)
  · rw [show (⟨store, UserVariant.clearCache cfg c uid⟩ : UserVariant.UState).cache =
      UserVariant.clearCache cfg c uid from rfl, uClear_lookup_css cfg c uid hen] at he
    exact absurd he (by simp)

/-- `db.update(tableName, d, { userId })` on a table that holds a row for
`userId` leaves the row equal to `d`. -/
theorem lookup_map_replace (l : List (String × UserVariant.Theme)) (uid : String)
    (d : UserVariant.Theme) (t0 : UserVariant.Theme)
    (h : List.lookup uid l = some t0) :
    List.lookup uid
      (l.map (fun kv => if kv.1 = uid then (kv.1, d) else kv)) = some d := by
  induction l with
  | nil => simp at h
  | cons hd tl ih =>
    obtain ⟨a, b⟩ := hd
    by_cases ha : a = uid
    · subst ha
      simp only [List.map_cons]
      simp [List.lookup]
    · have hne : (uid == a) = false := beq_eq_false_iff_ne.mpr (Ne.symm ha)
      simp only [List.lookup, hne] at h
      simp only [List.map_cons]
      rw [if_neg ha]
      simp only [List.lookup, hne]
      exact ih h

/-- Claim C5: after any successful upsert (`POST /`) or reset
(`DELETE /`) in either variant, both the record cache entry and the
derived CSS cache entry for the written identity key are gone, and no
subsequent theme read or CSS read for that key — immediately or after
any further sequence of reads — ever returns a payload computed before
the write: every such read is derived from the post-write store.
(A later write re-establishes the same property for itself.) -/
theorem C5_cache_coherence :
    (∀ (cfg : Config) (s : GlobalVariant.GState) (p : PartialTheme)
       (r : Option GlobalVariant.Theme) (s' : GlobalVariant.GState) (now : ℤ)
       (L : ColorLib),
      GlobalVariant.postThemeRoute cfg s p = (.ok r, s') →
      ((cfg.enableCaching = true →
          List.lookup GlobalVariant.getCacheKey s'.cache = none ∧
          List.lookup GlobalVariant.cssCacheKey s'.cache = none) ∧
        (GlobalVariant.getThemeRoute cfg s' now).1 = s'.store.map Sum.inl ∧
        (GlobalVariant.getCssRoute cfg L s' now).1 = gCssExpected L s'.store)) ∧
    (∀ (cfg : Config) (s : GlobalVariant.GState) (now : ℤ) (L : ColorLib),
      ((cfg.enableCaching = true →
          List.lookup GlobalVariant.getCacheKey
            (GlobalVariant.deleteThemeRoute cfg s).2.cache = none ∧
          List.lookup GlobalVariant.cssCacheKey
            (GlobalVariant.deleteThemeRoute cfg s).2.cache = none) ∧
        (GlobalVariant.getThemeRoute cfg (GlobalVariant.deleteThemeRoute cfg s).2 now).1 =
          (GlobalVariant.deleteThemeRoute cfg s).2.store.map Sum.inl ∧
        (GlobalVariant.getCssRoute cfg L (GlobalVariant.deleteThemeRoute cfg s).2 now).1 =
          gCssExpected L (GlobalVariant.deleteThemeRoute cfg s).2.store)) ∧
    (∀ (cfg : Config) (s : UserVariant.UState) (uid : String) (p : PartialTheme)
       (r : UserVariant.Theme) (s' : UserVariant.UState) (now : ℤ) (L : ColorLib),
      UserVariant.postThemeRoute cfg s uid p = (.ok r, s') →
      ((cfg.enableCaching = true →
          List.lookup (UserVariant.getCacheKey uid) s'.cache = none ∧
          List.lookup (UserVariant.getCacheKey ("css_" ++ uid)) s'.cache = none) ∧
        (UserVariant.getThemeRoute cfg s' uid now).1 =
          some (.inl ((List.lookup uid s'.store).getD (UserVariant.createDefaultTheme uid))) ∧
        (UserVariant.getCssRoute cfg L s' uid now).1 =
          uCssExpected L (List.lookup uid s'.store))) ∧
    (∀ (cfg : Config) (s : UserVariant.UState) (uid : String) (now : ℤ) (L : ColorLib),
      ((cfg.enableCaching = true →
          List.lookup (UserVariant.getCacheKey uid)
            (UserVariant.deleteThemeRoute cfg s uid).cache = none ∧
          List.lookup (UserVariant.getCacheKey ("css_" ++ uid))
            (UserVariant.deleteThemeRoute cfg s uid).cache = none) ∧
        (UserVariant.getThemeRoute cfg (UserVariant.deleteThemeRoute cfg s uid) uid now).1 =
          some (.inl ((List.lookup uid (UserVariant.deleteThemeRoute cfg s uid).store).getD
            (UserVariant.createDefaultTheme uid))) ∧
        (UserVariant.getCssRoute cfg L (UserVariant.deleteThemeRoute cfg s uid) uid now).1 =
          uCssExpected L (List.lookup uid (UserVariant.deleteThemeRoute cfg s uid).store))) ∧
    (∀ (cfg : Config) (s : GlobalVariant.GState) (p : PartialTheme)
       (r : Option GlobalVariant.Theme) (s' : GlobalVariant.GState) (L : ColorLib)
       (ops : List (ReadReq × ℤ)) (now : ℤ),
      GlobalVariant.postThemeRoute cfg s p = (.ok r, s') →
      (GlobalVariant.getThemeRoute cfg (gRunReads cfg L s' ops) now).1 =
        s'.store.map Sum.inl ∧
      (GlobalVariant.getCssRoute cfg L (gRunReads cfg L s' ops) now).1 =
        gCssExpected L s'.store) ∧
    (∀ (cfg : Config) (s : GlobalVariant.GState) (L : ColorLib)
       (ops : List (ReadReq × ℤ)) (now : ℤ),
      (GlobalVariant.getThemeRoute cfg
          (gRunReads cfg L (GlobalVariant.deleteThemeRoute cfg s).2 ops) now).1 =
        (GlobalVariant.deleteThemeRoute cfg s).2.store.map Sum.inl ∧
      (GlobalVariant.getCssRoute cfg L
          (gRunReads cfg L (GlobalVariant.deleteThemeRoute cfg s).2 ops) now).1 =
        gCssExpected L (GlobalVariant.deleteThemeRoute cfg s).2.store) ∧
    (∀ (cfg : Config) (s : UserVariant.UState) (uid : String) (p : PartialTheme)
       (r : UserVariant.Theme) (s' : UserVariant.UState) (L : ColorLib)
       (ops : List (ReadReq × ℤ)) (now : ℤ),
      UserVariant.postThemeRoute cfg s uid p = (.ok r, s') →
      (UserVariant.getThemeRoute cfg (uRunReads cfg L uid s' ops) uid now).1 =
        some (.inl r) ∧
      (UserVariant.getCssRoute cfg L (uRunReads cfg L uid s' ops) uid now).1 =
        .ok ⟨.inr (UserVariant.renderCss L r), "text/css", "public, max-age=300"⟩) ∧
    (∀ (cfg : Config) (s : UserVariant.UState) (uid : String)
       (t0 : UserVariant.Theme) (L : ColorLib) (ops : List (ReadReq × ℤ)) (now : ℤ),
      List.lookup uid s.store = some t0 →
      (UserVariant.getThemeRoute cfg
          (uRunReads cfg L uid (UserVariant.deleteThemeRoute cfg s uid) ops) uid now).1 =
        some (.inl (UserVariant.createDefaultTheme uid)) ∧
      (UserVariant.getCssRoute cfg L
          (uRunReads cfg L uid (UserVariant.deleteThemeRoute cfg s uid) ops) uid now).1 =
        .ok ⟨.inr (UserVariant.renderCss L (UserVariant.createDefaultTheme uid)),
             "text/css", "public, max-age=300"⟩) := by
  have gPostState : ∀ (cfg : Config) (s : GlobalVariant.GState) (p : PartialTheme)
      (r : Option GlobalVariant.Theme) (s' : GlobalVariant.GState),
      GlobalVariant.postThemeRoute cfg s p = (.ok r, s') →
      s' = ⟨s.store.map (fun t => GlobalVariant.applyPatch t p),
            GlobalVariant.clearCache cfg s.cache⟩ := by
    intro cfg s p r s' h
    cases hv : GlobalVariant.validateThemeData p with
    | some msg => simp [GlobalVariant.postThemeRoute, hv] at h
    | none =>
      simp [GlobalVariant.postThemeRoute, hv, Prod.ext_iff] at h
      exact h.2.symm
  have uPostState : ∀ (cfg : Config) (s : UserVariant.UState) (uid : String)
      (p : PartialTheme) (r : UserVariant.Theme) (s' : UserVariant.UState),
      UserVariant.postThemeRoute cfg s uid p = (.ok r, s') →
      ∃ cs, p.colors = some cs ∧
        r = UserVariant.buildUpdateData uid p cs ∧
        s' = ⟨UserVariant.storeSet s.store uid (UserVariant.buildUpdateData uid p cs),
              UserVariant.clearCache cfg s.cache uid⟩ := by
    intro cfg s uid p r s' h
    cases hc : p.colors with
    | none => simp [UserVariant.postThemeRoute, hc] at h
    | some cs =>
      cases hv : UserVariant.validateThemeData p with
      | some msg => simp [UserVariant.postThemeRoute, hc, hv] at h
      | none =>
        refine ⟨cs, rfl, ?_⟩
        cases hl : List.lookup uid s.store with
        | none =>
          simp [UserVariant.postThemeRoute, hc, hv, hl, Prod.ext_iff] at h
          exact ⟨h.1.symm, h.2.symm⟩
        | some t0 =>
          simp [UserVariant.postThemeRoute, hc, hv, hl, Prod.ext_iff] at h
          exact ⟨h.1.symm, h.2.symm⟩
  refine ⟨?_, ?_, ?_, ?_, ?_, ?_, ?_, ?_⟩
  · intro cfg s p r s' now L h
    obtain rfl := gPostState cfg s p r s' h
    exact ⟨fun hen => ⟨gClear_lookup_theme cfg s.cache hen,
        gClear_lookup_css cfg s.cache hen⟩,
      gGetTheme_miss cfg _ now (fun hen => gClear_lookup_theme cfg s.cache hen),
      gGetCss_miss cfg L _ now (fun hen => gClear_lookup_css cfg s.cache hen)⟩
  · intro cfg s now L
    exact ⟨fun hen => ⟨gClear_lookup_theme cfg s.cache hen,
        gClear_lookup_css cfg s.cache hen⟩,
      gGetTheme_miss cfg _ now (fun hen => gClear_lookup_theme cfg s.cache hen),
      gGetCss_miss cfg L _ now (fun hen => gClear_lookup_css cfg s.cache hen)⟩
  · intro cfg s uid p r s' now L h
    obtain ⟨cs, hc, hr, rfl⟩ := uPostState cfg s uid p r s' h
    exact ⟨fun hen => ⟨uClear_lookup_theme cfg s.cache uid hen,
        uClear_lookup_css cfg s.cache uid hen⟩,
      uGetTheme_miss cfg _ uid now
        (fun hen => uClear_lookup_theme cfg s.cache uid hen),
      uGetCss_miss cfg L _ uid now
        (fun hen => uClear_lookup_css cfg s.cache uid hen)⟩
  · intro cfg s uid now L
    exact ⟨fun hen => ⟨uClear_lookup_theme cfg s.cache uid hen,
        uClear_lookup_css cfg s.cache uid hen⟩,
      uGetTheme_miss cfg _ uid now
        (fun hen => uClear_lookup_theme cfg s.cache uid hen),
      uGetCss_miss cfg L _ uid now
        (fun hen => uClear_lookup_css cfg s.cache uid hen)⟩
  · intro cfg s p r s' L ops now h
    obtain rfl := gPostState cfg s p r s' h
    have hcoh := gRun_coherent cfg L
      (s.store.map (fun t => GlobalVariant.applyPatch t p)) ops _
      (gCoherent_clear cfg L _ s.cache)
    exact ⟨(gTheme_read_coherent cfg L _ _ now hcoh).1,
      (gCss_read_coherent cfg L _ _ now hcoh).1⟩
  · intro cfg s L ops now
    have hcoh := gRun_coherent cfg L
      (s.store.map (fun t => GlobalVariant.applyPatch t GlobalVariant.defaultResetPatch))
      ops _ (gCoherent_clear cfg L _ s.cache)
    exact ⟨(gTheme_read_coherent cfg L _ _ now hcoh).1,
      (gCss_read_coherent cfg L _ _ now hcoh).1⟩
  · intro cfg s uid p r s' L ops now h
    obtain ⟨cs, hc, hr, rfl⟩ := uPostState cfg s uid p r s' h
    subst hr
    have hcoh := uRun_coherent cfg L uid (UserVariant.buildUpdateData uid p cs) ops _
      (uCoherent_clear cfg L uid _ _ s.cache (lookup_storeSet_self s.store uid _))
    exact ⟨(uTheme_read_coherent cfg L uid _ _ now hcoh).1,
      (uCss_read_coherent cfg L uid _ _ now hcoh).1⟩
  · intro cfg s uid t0 L ops now hrow
    have hcoh := uRun_coherent cfg L uid (UserVariant.createDefaultTheme uid) ops _
      (uCoherent_clear cfg L uid _ _ s.cache
        (lookup_map_replace s.store uid (UserVariant.createDefaultTheme uid) t0 hrow))
    exact ⟨(uTheme_read_coherent cfg L uid _ _ now hcoh).1,
      (uCss_read_coherent cfg L uid _ _ now hcoh).1⟩

theorem C5_cache_coherence_witness :
    ((true = true →
        List.lookup GlobalVariant.getCacheKey gC5s.cache = none ∧
        List.lookup GlobalVariant.cssCacheKey gC5s.cache = none) ∧
      (GlobalVariant.getThemeRoute ⟨true, 300000⟩ gC5s 9).1 = gC5s.store.map Sum.inl ∧
      (GlobalVariant.getCssRoute ⟨true, 300000⟩ stubColorLib gC5s 9).1 =
        gCssExpected stubColorLib gC5s.store) ∧
    ((true = true →
        List.lookup (UserVariant.getCacheKey "7") uC5s.cache = none ∧
        List.lookup (UserVariant.getCacheKey ("css_" ++ "7")) uC5s.cache = none) ∧
      (UserVariant.getThemeRoute ⟨true, 300000⟩ uC5s "7" 9).1 =
        some (.inl ((List.lookup "7" uC5s.store).getD (UserVariant.createDefaultTheme "7"))) ∧
      (UserVariant.getCssRoute ⟨true, 300000⟩ stubColorLib uC5s "7" 9).1 =
        uCssExpected stubColorLib (List.lookup "7" uC5s.store)) ∧
    ((GlobalVariant.getThemeRoute ⟨true, 300000⟩
        (gRunReads ⟨true, 300000⟩ stubColorLib gC5s
          [(ReadReq.theme, 3), (ReadReq.css, 4)]) 9).1 = gC5s.store.map Sum.inl ∧
     (GlobalVariant.getCssRoute ⟨true, 300000⟩ stubColorLib
        (gRunReads ⟨true, 300000⟩ stubColorLib gC5s
          [(ReadReq.theme, 3), (ReadReq.css, 4)]) 9).1 =
      gCssExpected stubColorLib gC5s.store) ∧
    ((UserVariant.getThemeRoute ⟨true, 300000⟩
        (uRunReads ⟨true, 300000⟩ stubColorLib "7" uC5s
          [(ReadReq.theme, 3), (ReadReq.css, 4)]) "7" 9).1 =
      some (.inl (UserVariant.buildUpdateData "7"
        { colors := some UserVariant.DEFAULT_THEME_COLORS }
        UserVariant.DEFAULT_THEME_COLORS)) ∧
     (UserVariant.getCssRoute ⟨true, 300000⟩ stubColorLib
        (uRunReads ⟨true, 300000⟩ stubColorLib "7" uC5s
          [(ReadReq.theme, 3), (ReadReq.css, 4)]) "7" 9).1 =
      .ok ⟨.inr (UserVariant.renderCss stubColorLib
          (UserVariant.buildUpdateData "7"
            { colors := some UserVariant.DEFAULT_THEME_COLORS }
            UserVariant.DEFAULT_THEME_COLORS)),
        "text/css", "public, max-age=300"⟩) ∧
    ((UserVariant.getThemeRoute ⟨true, 300000⟩
        (uRunReads ⟨true, 300000⟩ stubColorLib "7"
          (UserVariant.deleteThemeRoute ⟨true, 300000⟩
            ⟨[("7", UserVariant.createDefaultTheme "7")], []⟩ "7")
          [(ReadReq.theme, 3), (ReadReq.css, 4)]) "7" 9).1 =
      some (.inl (UserVariant.createDefaultTheme "7")) ∧
     (UserVariant.getCssRoute ⟨true, 300000⟩ stubColorLib
        (uRunReads ⟨true, 300000⟩ stubColorLib "7"
          (UserVariant.deleteThemeRoute ⟨true, 300000⟩
            ⟨[("7", UserVariant.createDefaultTheme "7")], []⟩ "7")
          [(ReadReq.theme, 3), (ReadReq.css, 4)]) "7" 9).1 =
      .ok ⟨.inr (UserVariant.renderCss stubColorLib (UserVariant.createDefaultTheme "7")),
        "text/css", "public, max-age=300"⟩) :=
  ⟨C5_cache_coherence.1 ⟨true, 300000⟩ ⟨some GlobalVariant.createDefaultTheme, []⟩ {}
      (some (GlobalVariant.applyPatch GlobalVariant.createDefaultTheme {})) gC5s 9
      stubColorLib rfl,
   C5_cache_coherence.2.2.1 ⟨true, 300000⟩ ⟨[], []⟩ "7"
      { colors := some UserVariant.DEFAULT_THEME_COLORS }
      (UserVariant.buildUpdateData "7"
        { colors := some UserVariant.DEFAULT_THEME_COLORS }
        UserVariant.DEFAULT_THEME_COLORS)
      uC5s 9 stubColorLib rfl,
   C5_cache_coherence.2.2.2.2.1 ⟨true, 300000⟩
      ⟨some GlobalVariant.createDefaultTheme, []⟩ {}
      (some (GlobalVariant.applyPatch GlobalVariant.createDefaultTheme {})) gC5s
      stubColorLib [(ReadReq.theme, 3), (ReadReq.css, 4)] 9 rfl,
   C5_cache_coherence.2.2.2.2.2.2.1 ⟨true, 300000⟩ ⟨[], []⟩ "7"
      { colors := some UserVariant.DEFAULT_THEME_COLORS }
      (UserVariant.buildUpdateData "7"
        { colors := some UserVariant.DEFAULT_THEME_COLORS }
        UserVariant.DEFAULT_THEME_COLORS)
      uC5s stubColorLib [(ReadReq.theme, 3), (ReadReq.css, 4)] 9 rfl,
   C5_cache_coherence.2.2.2.2.2.2.2 ⟨true, 300000⟩
      ⟨[("7", UserVariant.createDefaultTheme "7")], []⟩ "7"
      (UserVariant.createDefaultTheme "7") stubColorLib
      [(ReadReq.theme, 3), (ReadReq.css, 4)] 9 rfl⟩
